import Mathlib

/-!
Verification development for the `xadder` repository (files `xadder.py` and
`xad.py`): a decoder for the proprietary "XAD" chip-data file format.

The Python sources are shallowly embedded below.  Conventions of the
embedding:

* A DOM node (as produced by `xml.dom.minidom`) is the inductive `Node`:
  element (tag name, attributes, children), text, or comment.  The outer and
  the embedded XML documents are parsed by external libraries
  (`xml.dom.minidom.parse` / `parseString`, `zlib`), which the specification
  declares out of scope; those external collaborators appear as explicit
  function parameters (`pXml` for string-to-DOM parsing, `inflateF` for raw
  DEFLATE inflation).  Everything the repository's own code does is embedded
  concretely.
* Python byte strings are `List Nat` (each entry < 256); Python text strings
  that carry payload data are `List Char` or, after UTF-16 decoding,
  `List Nat` of code points.
* Python exceptions become the `XadError` sum; every `raise` site of the
  source maps to a constructor, and library exceptions (struct.error,
  binascii.Error, UnicodeDecodeError, zlib.error, ExpatError, AssertionError)
  get constructors of their own.
* The source's `print` calls are presentation: where the source merely prints
  a decoded value, the embedding computes the value (so its failure modes are
  preserved) and discards it; where the printed value is the component's
  output (comment records, header fields, preview bundles), the embedding
  returns it as structured data.
-/

/-- A DOM node as produced by the external XML parser: an element with tag
name, attribute list and ordered children, a text node, or a comment node. -/
inductive Node where
  | element (name : String) (attrs : List (String × String)) (children : List Node)
  | text (data : List Char)
  | comment (data : List Char)

/-- Embeds `node.nodeName` of minidom: the tag name for elements, `#text` for text
nodes, `#comment` for comments. -/
def nodeName : Node → String
  | .element n _ _ => n
  | .text _ => "#text"
  | .comment _ => "#comment"

/-- Embeds `node.nodeValue` of minidom: the character data for text and comment
nodes, `None` for elements. -/
def nodeValue : Node → Option (List Char)
  | .element _ _ _ => none
  | .text d => some d
  | .comment d => some d

/-- Embeds `node.childNodes` of minidom: the ordered children of an element; text
and comment nodes have no children. -/
def childNodesOf : Node → List Node
  | .element _ _ cs => cs
  | .text _ => []
  | .comment _ => []

/-- Embeds `node.nodeType == node.ELEMENT_NODE`. -/
def Node.isElement : Node → Bool
  | .element _ _ _ => true
  | _ => false

/-- Embeds `node.nodeType == node.TEXT_NODE`. -/
def Node.isText : Node → Bool
  | .text _ => true
  | _ => false

/-- Embeds `node.attributes.getNamedItem(key).nodeValue` on an attribute list:
the value of the first binding of `key`, if any. -/
def getAttr (attrs : List (String × String)) (key : String) : Option String :=
  match attrs.find? (fun p => p.1 = key) with
  | some p => some p.2
  | none => none

/-- The failure taxonomy of the decoder.  Constructors marked "library"
model exceptions raised by the Python standard library at the corresponding
call sites of the source. -/
inductive XadError where
  /-- Embeds `ParseFailure` raised at `xadder.py:101`. -/
  | parseFailure (msg : String)
  /-- Embeds `UnexpectedNodeError(node, message)`: unknown XML structure. -/
  | unexpectedNode (node : Node) (msg : String)
  /-- Embeds `UnsupportedPackedValueType(var_type)` raised at `xadder.py:331`. -/
  | unsupportedPackedValueType (varType : String)
  /-- library: `struct.error` from `struct.unpack` when the byte string's
  length is not `numvalues × element-width` (`xadder.py:334`). -/
  | arrayLengthMismatch
  /-- library: `struct.error` from a malformed format string (negative
  `numvalues` interpolated into `'<%d%s'`). -/
  | structFormatError
  /-- library: `binascii.Error` from `b64decode` on incorrect padding. -/
  | binasciiError
  /-- library: `UnicodeDecodeError` from strict `.decode('utf-16-le')`. -/
  | unicodeDecodeError
  /-- library: `ValueError`, e.g. from `int()` on a non-numeric string or
  from `bytes()` on an out-of-range integer sequence. -/
  | valueError
  /-- library: `TypeError`, e.g. from `bytes()` applied to floats. -/
  | typeError
  /-- library: `AttributeError` from a `None` attribute access
  (missing `numvalues`/`vartype` attribute, `None.encode`). -/
  | attributeError
  /-- library: `xml.parsers.expat.ExpatError` from `parseString` on
  ill-formed embedded XML. -/
  | expatError
  /-- library: `zlib.error` from raw-DEFLATE inflation. -/
  | inflateError
  /-- the bare `raise` at `xadder.py:545` (a `RuntimeError`). -/
  | bareRaise
  /-- a failed `assert` statement. -/
  | assertionError

/-! ## Byte-level primitives -/

/-- Embeds `int.from_bytes(bs, byteorder='little')`: little-endian value of a byte
string (the empty string yields 0). -/
def leWord : List Nat → Nat
  | [] => 0
  | b :: r => b + 256 * leWord r

/-- Little-endian encoding of `x` on `w` bytes (the layout written by the
instrument and read back by `struct.unpack`). -/
def toLEBytes : Nat → Nat → List Nat
  | 0, _ => []
  | w + 1, x => x % 256 :: toLEBytes w (x / 256)

/-- Embeds `struct.unpack` of `n` consecutive unsigned little-endian values of
width `w` bytes (the caller has already checked the total length). -/
def unpackN (w : Nat) : Nat → List Nat → List Nat
  | 0, _ => []
  | n + 1, bs => leWord (bs.take w) :: unpackN w n (bs.drop w)

/-- Reinterpret an unsigned 16-bit value as the signed value that
`struct.unpack('<h', …)` returns. -/
def fromInt16 (u : Nat) : Int :=
  if u < 32768 then (u : Int) else (u : Int) - 65536

/-- Two's-complement 16-bit little-endian encoding of a signed value
(the layout `struct.unpack('<h', …)` reads). -/
def toUInt16bits (v : Int) : Nat := (v % 65536).toNat

/-! ## UTF-16LE -/

/-- Strict `bytes.decode('utf-16-le')`: pair up bytes into 16-bit code
units, combine surrogate pairs, fail on an odd byte count or a lone
surrogate.  Returns the decoded code points. -/
def utf16leDecodeUnits : List Nat → Option (List Nat)
  | [] => some []
  | [_] => none
  | lo :: hi :: rest =>
    let u := lo + 256 * hi
    if u < 0xD800 ∨ 0xDFFF < u then
      match utf16leDecodeUnits rest with
      | some cps => some (u :: cps)
      | none => none
    else if u < 0xDC00 then
      -- high surrogate: must be followed by a low surrogate
      match rest with
      | lo2 :: hi2 :: rest2 =>
        let u2 := lo2 + 256 * hi2
        if 0xDC00 ≤ u2 ∧ u2 ≤ 0xDFFF then
          match utf16leDecodeUnits rest2 with
          | some cps => some ((0x10000 + (u - 0xD800) * 1024 + (u2 - 0xDC00)) :: cps)
          | none => none
        else none
      | _ => none
    else none

/-- Strict `bytes.decode('utf-16-le')` (code points). -/
def utf16leDecode (bs : List Nat) : Option (List Nat) := utf16leDecodeUnits bs

/-- Embeds `str.encode('utf-16-le')` on a sequence of code points (all inputs in
this development come from a strict UTF-16 decode, so none is a lone
surrogate). -/
def utf16leEncode : List Nat → List Nat
  | [] => []
  | cp :: rest =>
    if cp < 0x10000 then
      cp % 256 :: cp / 256 :: utf16leEncode rest
    else
      let v := cp - 0x10000
      let hi := 0xD800 + v / 1024
      let lo := 0xDC00 + v % 1024
      hi % 256 :: hi / 256 :: lo % 256 :: lo / 256 :: utf16leEncode rest

/-! ## Base64 (`base64.b64decode` with `validate=False`) -/

/-- The standard Base64 alphabet. -/
def b64Alphabet : List Char :=
  ['A','B','C','D','E','F','G','H','I','J','K','L','M','N','O','P',
   'Q','R','S','T','U','V','W','X','Y','Z',
   'a','b','c','d','e','f','g','h','i','j','k','l','m','n','o','p',
   'q','r','s','t','u','v','w','x','y','z',
   '0','1','2','3','4','5','6','7','8','9','+','/']

/-- Character of a six-bit group. -/
def b64Char (i : Nat) : Char := b64Alphabet.getD i 'A'

/-- Index of an alphabet character. -/
def b64Index (c : Char) : Option Nat := b64Alphabet.indexOf? c

/-- Is `c` a Base64 alphabet character or the padding character?
(`b64decode` with `validate=False` discards every other character.) -/
def isB64OrPad (c : Char) : Bool := (b64Index c).isSome || c = '='

/-- Decode a Base64 text from which non-alphabet characters have already
been discarded: four-character groups, with `=` padding only in a final
group.  Mirrors CPython's `binascii.a2b_base64` on well-padded input;
ill-padded input fails (binascii.Error: incorrect padding). -/
def b64decodeStripped : List Char → Option (List Nat)
  | [] => some []
  | c1 :: c2 :: c3 :: c4 :: rest =>
    match b64Index c1, b64Index c2 with
    | some s1, some s2 =>
      if c3 = '=' then
        if c4 = '=' ∧ rest = [] then some [s1 * 4 + s2 / 16] else none
      else
        match b64Index c3 with
        | some s3 =>
          if c4 = '=' then
            if rest = [] then some [s1 * 4 + s2 / 16, s2 % 16 * 16 + s3 / 4] else none
          else
            match b64Index c4, b64decodeStripped rest with
            | some s4, some tl =>
              some ((s1 * 4 + s2 / 16) :: (s2 % 16 * 16 + s3 / 4) :: (s3 % 4 * 64 + s4) :: tl)
            | _, _ => none
        | none => none
    | _, _ => none
  | _ => none

/-- Embeds `base64.b64decode` on text: discard foreign characters (including
whitespace), then decode well-padded four-character groups. -/
def b64decode (s : List Char) : Option (List Nat) :=
  b64decodeStripped (s.filter isB64OrPad)

/-- Standard Base64 encoding of a byte string (the inverse direction, used
to state round-trip properties; the repository itself never encodes). -/
def b64encode : List Nat → List Char
  | [] => []
  | [b1] => [b64Char (b1 / 4), b64Char (b1 % 4 * 16), '=', '=']
  | [b1, b2] => [b64Char (b1 / 4), b64Char (b1 % 4 * 16 + b2 / 16), b64Char (b2 % 16 * 4), '=']
  | b1 :: b2 :: b3 :: r =>
    b64Char (b1 / 4) :: b64Char (b1 % 4 * 16 + b2 / 16) ::
    b64Char (b2 % 16 * 4 + b3 / 64) :: b64Char (b3 % 64) :: b64encode r

/-! ## `int()` on attribute text -/

/-- Is `c` one of the whitespace characters `int()` strips? -/
def isPySpace (c : Char) : Bool :=
  c = ' ' ∨ c = '\t' ∨ c = '\n' ∨ c = '\r' ∨ c = '\x0b' ∨ c = '\x0c'

/-- The value of a nonempty all-digit string. -/
def digitsToNat? (l : List Char) : Option Nat :=
  if l ≠ [] ∧ l.all Char.isDigit then
    some (l.foldl (fun a c => a * 10 + (c.toNat - 48)) 0)
  else none

/-- Embeds `int(s)` on decimal text: optional surrounding whitespace, optional
sign, a nonempty digit run.  (Other accepted Python forms, such as digit
separators, do not occur in this format.) -/
def pyInt (s : String) : Option Int :=
  let l := (s.toList.dropWhile isPySpace).reverse.dropWhile isPySpace |>.reverse
  match l with
  | '-' :: ds => (digitsToNat? ds).map (fun n => -(n : Int))
  | '+' :: ds => (digitsToNat? ds).map (fun n => (n : Int))
  | ds => (digitsToNat? ds).map (fun n => (n : Int))

/-! ## Text and table extraction (`get_text`, `get_table`, `xadder.py:120-142`) -/

/-- Embeds `get_text(node)`: exactly one child that is a text node yields its data;
zero children yield the empty string; one non-text child or more than one
child is `UnexpectedNodeError`. -/
def get_text (n : Node) : Except XadError (List Char) :=
  match childNodesOf n with
  | [child] =>
    match child with
    | .text d => .ok d
    | _ => .error (.unexpectedNode child "Not a text node")
  | [] => .ok []
  | _ => .error (.unexpectedNode n "More than one child node")

/-- Embeds `get_table(node)`: exactly one child whose node name is `Table`
succeeds (its processing is a TODO in the source); zero children and more
than one child are `UnexpectedNodeError` on the wrapping node; a single
child of any other name is `UnexpectedNodeError` on the child. -/
def get_table (n : Node) : Except XadError Unit :=
  match childNodesOf n with
  | [child] =>
    if nodeName child = "Table" then .ok ()
    else .error (.unexpectedNode child "Not a Table node")
  | [] => .error (.unexpectedNode n "Table missing children")
  | _ => .error (.unexpectedNode n "More than one child node for table")

/-! ## Binary header (`handle_header`, `xadder.py:65-79`) -/

/-- The five integers and one string printed by `handle_header`. -/
structure DecodedHeader where
  int1 : Nat
  int2 : Nat
  int3 : Nat
  int4 : Nat
  int5 : Nat
  str1 : List Nat
  deriving DecidableEq, Repr

/-- Embeds `handle_header(decoded_text)`: the five `int.from_bytes` reads of byte
slices `[0:4]` … `[16:20]` (a short slice simply yields the value of the
bytes that are there) and the strict UTF-16LE decode of bytes `[20:]`.
The only failure mode is the UTF-16 decode; no length check exists. -/
def handle_header (bs : List Nat) : Except XadError DecodedHeader :=
  let i1 := leWord ((bs.drop 0).take 4)
  let i2 := leWord ((bs.drop 4).take 4)
  let i3 := leWord ((bs.drop 8).take 4)
  let i4 := leWord ((bs.drop 12).take 4)
  let i5 := leWord ((bs.drop 16).take 4)
  match utf16leDecode (bs.drop 20) with
  | some s => .ok ⟨i1, i2, i3, i4, i5, s⟩
  | none => .error .unicodeDecodeError

/-! ## Packed values (`get_packed_values`, `xadder.py:320-336`) -/

/-- The tagged numeric array produced by `get_packed_values`.  Float32
values are carried as their 32-bit little-endian bit patterns: the decoder
is purely structural and never computes with the floating-point value. -/
inductive PackedArray where
  | float32 (words : List Nat)
  | int16 (values : List Int)
  | uint8 (values : List Nat)
  deriving DecidableEq, Repr

/-- Number of elements of a packed array. -/
def PackedArray.size : PackedArray → Nat
  | .float32 ws => ws.length
  | .int16 vs => vs.length
  | .uint8 vs => vs.length

/-- Embeds `get_packed_values(packed_values)`: read `numvalues` and `vartype`
attributes, pick the element width from `vartype` (anything but `LE_R4`,
`LE_I2`, `LE_UI1` is `UnsupportedPackedValueType`), Base64-decode the single
text child, and `struct.unpack` the exact number of fixed-width
little-endian values (`struct.error` when the byte count differs). -/
def get_packed_values (n : Node) : Except XadError PackedArray := do
  match n with
  | .element _ attrs _ => do
    let nstr ← match getAttr attrs "numvalues" with
      | some v => .ok v
      | none => .error .attributeError
    let num ← match pyInt nstr with
      | some v => .ok v
      | none => .error .valueError
    let vt ← match getAttr attrs "vartype" with
      | some v => .ok v
      | none => .error .attributeError
    -- the unpack format cascade of xadder.py:324-331
    let width ←
      if vt = "LE_R4" then .ok 4
      else if vt = "LE_I2" then .ok 2
      else if vt = "LE_UI1" then .ok 1
      else .error (.unsupportedPackedValueType vt)
    let encoded ← get_text n
    let decoded ← match b64decode encoded with
      | some bs => .ok bs
      | none => .error .binasciiError
    -- a negative count makes `'<%d%s'` an invalid struct format string
    if num < 0 then .error .structFormatError
    else
      let nn := num.toNat
      if decoded.length = nn * width then
        if vt = "LE_R4" then .ok (.float32 (unpackN 4 nn decoded))
        else if vt = "LE_I2" then .ok (.int16 ((unpackN 2 nn decoded).map fromInt16))
        else .ok (.uint8 (unpackN 1 nn decoded))
      else .error .arrayLengthMismatch
  | _ => .error .assertionError

/-- Embeds `bytes(values)` on the tuple returned by `get_packed_values`
(`xadder.py:442`): requires a sequence of integers in `0..255`; floats are
`TypeError`, out-of-range integers `ValueError`. -/
def pyBytesOfValues : PackedArray → Except XadError (List Nat)
  | .float32 _ => .error .typeError
  | .int16 vs =>
    if vs.all (fun v => 0 ≤ v ∧ v < 256) then .ok (vs.map Int.toNat)
    else .error .valueError
  | .uint8 vs =>
    if vs.all (fun v => v < 256) then .ok vs else .error .valueError

/-! ## The preview-bundle split regexes

`xadder.py:98` matches `(.*)[\x00\x01](.*)\x00` and `xad.py:76` matches
`(.*)\x01(.*)\x00` against the UTF-16-decoded preview text (DOTALL, no end
anchor).  Both groups are greedy, so group 1 runs to the *last* separator
character that still has a NUL somewhere after it, and group 2 then runs to
the last NUL of the remainder.  `regexSplit2` implements exactly this
backtracking order: a split inside the tail (longer group 1) is preferred
to a split at the head position, and when no such split exists group 2
extends to the last NUL. -/

/-- Greedy `(.*)\x00` as a prefix of `r`: succeeds iff `r` contains the
code point 0 and returns everything before its last occurrence. -/
def lastNulSplit : List Nat → Option (List Nat)
  | [] => none
  | c :: r =>
    match lastNulSplit r with
    | some x => some (c :: x)
    | none => if c = 0 then some [] else none

/-- Greedy `(.*)sep(.*)\x00` as a prefix match (re.match, DOTALL): group 1
is maximal, then group 2 is maximal. -/
def regexSplit2 (isSep : Nat → Bool) : List Nat → Option (List Nat × List Nat)
  | [] => none
  | c :: r =>
    match regexSplit2 isSep r with
    | some (p, x) => some (c :: p, x)
    | none =>
      if isSep c then
        match lastNulSplit r with
        | some x => some ([], x)
        | none => none
      else none

/-- The split of `xadder.py:98`: separator class `[\x00\x01]`. -/
def xadderPreviewSplit : List Nat → Option (List Nat × List Nat) :=
  regexSplit2 (fun c => c == 0 || c == 1)

/-- The split of `xad.py:76`: separator `\x01` only. -/
def xadPreviewSplit : List Nat → Option (List Nat × List Nat) :=
  regexSplit2 (fun c => c == 1)

/-- Embeds `.replace('\r\n', '\n')`: left-to-right, non-overlapping. -/
def replaceCRLF : List Nat → List Nat
  | 13 :: 10 :: r => 10 :: replaceCRLF r
  | a :: r => a :: replaceCRLF r
  | [] => []

/-- Embeds `.replace('\r\n','\n').replace('\r','\n')` applied to the embedded
preview XML (`xadder.py:103`, `xad.py:80`). -/
def normalizeNewlines (s : List Nat) : List Nat :=
  (replaceCRLF s).map (fun a => if a = 13 then 10 else a)

/-! ## The schema-driven tree walk (`xadder.py:148-524`)

Each `handle_*` function of the source iterates the children of one element
and dispatches on `child.nodeName` through an `if/elif` cascade, raising
`UnexpectedNodeError` from the final `else`.  The embedding gives every
cascade its own `*Child` dispatch function and a `go*` walker over the
child list; the `handle_*` wrapper keeps the source's `assert` on the
parent's tag name.  Branches that only `print(child.toxml())` decode
nothing and always succeed; branches that print `get_text`/
`get_packed_values` results evaluate them (so their failures propagate) and
discard the value. -/

/-- One `if/elif` arm: evaluate the extracted text and discard it. -/
def textOf (c : Node) : Except XadError Unit := do
  let _ ← get_text c
  .ok ()

/-- Dispatch for one child of `<SignalData>` (`xadder.py:368-412`). -/
def signalDataChild (c : Node) : Except XadError Unit :=
  if nodeName c = "AlignmentBias" then textOf c
  else if nodeName c = "AlignmentScale" then textOf c
  else if nodeName c = "ChannelID" then textOf c
  else if nodeName c = "Index" then textOf c
  else if nodeName c = "MaxValue" then textOf c
  else if nodeName c = "MinValue" then textOf c
  else if nodeName c = "Name" then textOf c
  else if nodeName c = "NumberOfSamples" then textOf c
  else if nodeName c = "RawSignal" then do let _ ← get_packed_values c; .ok ()
  else if nodeName c = "ScriptStep" then do let _ ← get_packed_values c; .ok ()
  else if nodeName c = "UnitX" then textOf c
  else if nodeName c = "UnitY" then textOf c
  else if nodeName c = "XMaxVisibleRange" then textOf c
  else if nodeName c = "XMinVisibleRange" then textOf c
  else if nodeName c = "XStart" then textOf c
  else if nodeName c = "XStartAligned" then textOf c
  else if nodeName c = "XStep" then textOf c
  else if nodeName c = "XStepAligned" then textOf c
  else if nodeName c = "YMaxVisibleRange" then textOf c
  else if nodeName c = "YMinVisibleRange" then textOf c
  else .error (.unexpectedNode c "Unexpected node under SignalData element")

/-- Walk the children of `<SignalData>`. -/
def goSignalData : List Node → Except XadError Unit
  | [] => .ok ()
  | c :: rest => do
    signalDataChild c
    goSignalData rest

/-- Embeds `handle_signal_data(name, signal_data)`.  The `name` argument only
feeds the printed prefix, which is presentation. -/
def handle_signal_data (n : Node) : Except XadError Unit :=
  if nodeName n = "SignalData" then goSignalData (childNodesOf n)
  else .error .assertionError

/-- Dispatch for one child of `<Voltage>` (`xadder.py:338-346`). -/
def voltageChild (name : String) (c : Node) : Except XadError Unit :=
  if nodeName c = "HasData" then textOf c
  else if nodeName c = "SignalData" then handle_signal_data c
  else .error (.unexpectedNode c ("Unexpected node under " ++ name ++ " Voltage element"))

/-- Walk the children of `<Voltage>`. -/
def goVoltage (name : String) : List Node → Except XadError Unit
  | [] => .ok ()
  | c :: rest => do
    voltageChild name c
    goVoltage name rest

/-- Embeds `handle_voltage(name, voltage)`. -/
def handle_voltage (name : String) (n : Node) : Except XadError Unit :=
  if nodeName n = "Voltage" then goVoltage name (childNodesOf n)
  else .error .assertionError

/-- Dispatch for one child of `<Current>` (`xadder.py:348-356`). -/
def currentChild (name : String) (c : Node) : Except XadError Unit :=
  if nodeName c = "HasData" then textOf c
  else if nodeName c = "SignalData" then handle_signal_data c
  else .error (.unexpectedNode c ("Unexpected node under " ++ name ++ " Current element"))

/-- Walk the children of `<Current>`. -/
def goCurrent (name : String) : List Node → Except XadError Unit
  | [] => .ok ()
  | c :: rest => do
    currentChild name c
    goCurrent name rest

/-- Embeds `handle_current(name, current)`. -/
def handle_current (name : String) (n : Node) : Except XadError Unit :=
  if nodeName n = "Current" then goCurrent name (childNodesOf n)
  else .error .assertionError

/-- Dispatch for one child of `<Channel>` (`xadder.py:358-366`). -/
def channelChild (name : String) (c : Node) : Except XadError Unit :=
  if nodeName c = "HasData" then textOf c
  else if nodeName c = "SignalData" then handle_signal_data c
  else .error (.unexpectedNode c ("Unexpected node under " ++ name ++ " Channel element"))

/-- Walk the children of `<Channel>`. -/
def goChannel (name : String) : List Node → Except XadError Unit
  | [] => .ok ()
  | c :: rest => do
    channelChild name c
    goChannel name rest

/-- Embeds `handle_channel(name, channel)`. -/
def handle_channel (name : String) (n : Node) : Except XadError Unit :=
  if nodeName n = "Channel" then goChannel name (childNodesOf n)
  else .error .assertionError

/-- Dispatch for one child of a named raw-signal set
(`xadder.py:415-429`). -/
def rawSignalSetChild (name : String) (c : Node) : Except XadError Unit :=
  if nodeName c = "Channel" then handle_channel name c
  else if nodeName c = "Current" then handle_current name c
  else if nodeName c = "HasData" then textOf c
  else if nodeName c = "SignalData" then handle_signal_data c
  else if nodeName c = "Voltage" then handle_voltage name c
  else .error (.unexpectedNode c ("Unexpected node under " ++ name ++ " element"))

/-- Walk the children of a named raw-signal set. -/
def goRawSignalSet (name : String) : List Node → Except XadError Unit
  | [] => .ok ()
  | c :: rest => do
    rawSignalSetChild name c
    goRawSignalSet name rest

/-- Embeds `handle_raw_signal_set(name, raw_signal_set)`. -/
def handle_raw_signal_set (name : String) (n : Node) : Except XadError Unit :=
  if nodeName n = name then goRawSignalSet name (childNodesOf n)
  else .error .assertionError

/-- Walk the children of `<RawSignals>` (`xadder.py:431-434`): *every*
child, whatever its name, is treated as a named signal set — this table
has no unknown names. -/
def goRawSignals : List Node → Except XadError Unit
  | [] => .ok ()
  | c :: rest => do
    handle_raw_signal_set (nodeName c) c
    goRawSignals rest

/-- Embeds `handle_raw_signals(raw_signals)`. -/
def handle_raw_signals (n : Node) : Except XadError Unit :=
  if nodeName n = "RawSignals" then goRawSignals (childNodesOf n)
  else .error .assertionError

/-- Dispatch for one child of `<Script>` (`xadder.py:436-444`).  The
`ScriptText` branch runs the packed values through `bytes()` and a strict
UTF-16LE decode before printing, so those failure modes are kept. -/
def scriptChild (name : String) (c : Node) : Except XadError Unit :=
  if nodeName c = "AllowEdit" then textOf c
  else if nodeName c = "ScriptText" then do
    let pv ← get_packed_values c
    let bs ← pyBytesOfValues pv
    match utf16leDecode bs with
    | some _ => .ok ()
    | none => .error .unicodeDecodeError
  else .error (.unexpectedNode c ("Unexpected node under " ++ name ++ " Script element"))

/-- Walk the children of `<Script>`. -/
def goScript (name : String) : List Node → Except XadError Unit
  | [] => .ok ()
  | c :: rest => do
    scriptChild name c
    goScript name rest

/-- Embeds `handle_script(name, script)`. -/
def handle_script (name : String) (n : Node) : Except XadError Unit :=
  if nodeName n = "Script" then goScript name (childNodesOf n)
  else .error .assertionError

/-- Dispatch for one child of `<DAMAssaySetpoints>` (`xadder.py:174-180`):
only the (never observed) name `xxx` is accepted. -/
def damAssaySetpointsChild (c : Node) : Except XadError Unit :=
  if nodeName c = "xxx" then .ok ()
  else .error (.unexpectedNode c "Unexpected node under <DAMAssaySetpoints> element")

/-- Walk the children of `<DAMAssaySetpoints>`. -/
def goDamAssaySetpoints : List Node → Except XadError Unit
  | [] => .ok ()
  | c :: rest => do
    damAssaySetpointsChild c
    goDamAssaySetpoints rest

/-- Embeds `handle_dam_assay_setpoints(daas)`. -/
def handle_dam_assay_setpoints (n : Node) : Except XadError Unit :=
  if nodeName n = "DAMAssaySetpoints" then goDamAssaySetpoints (childNodesOf n)
  else .error .assertionError

/-- Dispatch for one child of `<DAAssaySetpoints>` (`xadder.py:182-194`). -/
def daAssaySetpointsChild (c : Node) : Except XadError Unit :=
  if nodeName c = "DAMAssaySetpoints" then handle_dam_assay_setpoints c
  else if nodeName c = "DAMAssayInfoCommon" then .ok ()
  else if nodeName c = "DAMAssayInfoMolecular" then .ok ()
  else if nodeName c = "DAMDefaultAssayInfoMolecular" then .ok ()
  else .error (.unexpectedNode c "Unexpected node under <DAAssaySetpoints> element")

/-- Walk the children of `<DAAssaySetpoints>`. -/
def goDaAssaySetpoints : List Node → Except XadError Unit
  | [] => .ok ()
  | c :: rest => do
    daAssaySetpointsChild c
    goDaAssaySetpoints rest

/-- Embeds `handle_da_assay_setpoints(daas)`. -/
def handle_da_assay_setpoints (n : Node) : Except XadError Unit :=
  if nodeName n = "DAAssaySetpoints" then goDaAssaySetpoints (childNodesOf n)
  else .error .assertionError

/-- Dispatch for one child of `<DASampleSetpoints>` (`xadder.py:196-274`). -/
def daSampleSetpointsChild (c : Node) : Except XadError Unit :=
  if nodeName c = "DAMIntegrator" then textOf c
  else if nodeName c = "DAMPeakManipulation" then .ok ()
  else if nodeName c = "DAMAlignment" then .ok ()
  else if nodeName c = "DAMConcentration" then .ok ()
  else if nodeName c = "DAMSizing" then .ok ()
  else if nodeName c = "DAMFragment" then .ok ()
  else if nodeName c = "DAMCoMigration" then .ok ()
  else if nodeName c = "DAMCalibration" then .ok ()
  else if nodeName c = "DAMSmearAnalysis" then .ok ()
  else if nodeName c = "DAMRollingBallA" then .ok ()
  else if nodeName c = "DAMRollingBallB" then .ok ()
  else if nodeName c = "DAMSpikeRejectionA" then .ok ()
  else if nodeName c = "DAMSpikeRejectionB" then .ok ()
  else if nodeName c = "DAMBaseline" then .ok ()
  else if nodeName c = "DAMCommon" then .ok ()
  else if nodeName c = "DAMStandardCurve" then .ok ()
  else if nodeName c = "DAMSavitzkyGolay" then .ok ()
  else if nodeName c = "DAMMarkerDetection" then .ok ()
  else if nodeName c = "DAMMarkerThreshold" then .ok ()
  else if nodeName c = "DAMLowerMarkerPresent" then textOf c
  else if nodeName c = "DAMBaselineSubstractionOld" then .ok ()
  else if nodeName c = "DAMBaselineSubstractionGolovin" then textOf c
  else if nodeName c = "DAMLinearStretchY" then textOf c
  else if nodeName c = "DAMMasterMarkerDetectionRNA" then textOf c
  else if nodeName c = "DAMSystemPeakDetection" then textOf c
  else if nodeName c = "DAMTimeShift" then textOf c
  else if nodeName c = "DAMPrepareRowData" then textOf c
  else if nodeName c = "DAMIntegrator2" then .ok ()
  else if nodeName c = "DAMFragment2" then textOf c
  else if nodeName c = "DAMDynamicMarkerDetection" then .ok ()
  else if nodeName c = "DAMNoiseCalculation" then .ok ()
  else if nodeName c = "DAMDeconvolution" then .ok ()
  else if nodeName c = "DAMNoiseFlagging" then .ok ()
  else if nodeName c = "DAMDetailing" then .ok ()
  else if nodeName c = "DAMPeakPercentOfTotal" then .ok ()
  else if nodeName c = "DAMIntegrationRefinement" then .ok ()
  else if nodeName c = "DAMLDLCalculation" then .ok ()
  else .error (.unexpectedNode c "Unexpected node under <DASampleSetpoints> element")

/-- Walk the children of `<DASampleSetpoints>`. -/
def goDaSampleSetpoints : List Node → Except XadError Unit
  | [] => .ok ()
  | c :: rest => do
    daSampleSetpointsChild c
    goDaSampleSetpoints rest

/-- Embeds `handle_da_sample_setpoints(daas)`. -/
def handle_da_sample_setpoints (n : Node) : Except XadError Unit :=
  if nodeName n = "DASampleSetpoints" then goDaSampleSetpoints (childNodesOf n)
  else .error .assertionError

/-- Dispatch for one child of `<DALadderSequence>` (`xadder.py:276-282`). -/
def daLadderSequenceChild (c : Node) : Except XadError Unit :=
  if nodeName c = "DAMethod" then .ok ()
  else .error (.unexpectedNode c "Unexpected node under <DALadderSequence> element")

/-- Walk the children of `<DALadderSequence>`. -/
def goDaLadderSequence : List Node → Except XadError Unit
  | [] => .ok ()
  | c :: rest => do
    daLadderSequenceChild c
    goDaLadderSequence rest

/-- Embeds `handle_da_ladder_sequence(dals)`. -/
def handle_da_ladder_sequence (n : Node) : Except XadError Unit :=
  if nodeName n = "DALadderSequence" then goDaLadderSequence (childNodesOf n)
  else .error .assertionError

/-- Dispatch for one child of `<AssayBody>` (`xadder.py:284-318`). -/
def assayBodyChild (c : Node) : Except XadError Unit :=
  if nodeName c = "DAAssaySetpoints" then handle_da_assay_setpoints c
  else if nodeName c = "DASampleSequence" then .ok ()
  else if nodeName c = "DASampleSetpoints" then handle_da_sample_setpoints c
  else if nodeName c = "DALadderSequence" then handle_da_ladder_sequence c
  else if nodeName c = "DALadderSetpoints" then .ok ()
  else if nodeName c = "UISetpoints" then .ok ()
  else if nodeName c = "DADefaultSampleSequence" then .ok ()
  else if nodeName c = "DADefaultSampleSetpoints" then .ok ()
  else if nodeName c = "DADefaultLadderSequence" then .ok ()
  else if nodeName c = "DADefaultLadderSetpoints" then .ok ()
  else if nodeName c = "DAChipSequence" then .ok ()
  else if nodeName c = "DAChipSetpoints" then .ok ()
  else if nodeName c = "DADefaultChipSequence" then .ok ()
  else if nodeName c = "DADefaultChipSetpoints" then .ok ()
  else if nodeName c = "DefaultUISetPoints" then .ok ()
  else .error (.unexpectedNode c "Unexpected node under <AssayBody> element")

/-- Walk the children of `<AssayBody>`. -/
def goAssayBody : List Node → Except XadError Unit
  | [] => .ok ()
  | c :: rest => do
    assayBodyChild c
    goAssayBody rest

/-- Embeds `handle_assay_body(assay_body)`. -/
def handle_assay_body (n : Node) : Except XadError Unit :=
  if nodeName n = "AssayBody" then goAssayBody (childNodesOf n)
  else .error .assertionError

/-- Dispatch for one child of `<Chip>` (`xadder.py:447-483`). -/
def chipChild (c : Node) : Except XadError Unit :=
  if nodeName c = "ID" then textOf c
  else if nodeName c = "AssayHeader" then .ok ()
  else if nodeName c = "AssayBody" then handle_assay_body c
  else if nodeName c = "Script" then handle_script "Chip" c
  else if nodeName c = "ChipInformation" then .ok ()
  else if nodeName c = "Instrument" then .ok ()
  else if nodeName c = "ComPortSettings" then .ok ()
  else if nodeName c = "DataStatus" then .ok ()
  else if nodeName c = "RawSignals" then handle_raw_signals c
  else if nodeName c = "Files" then .ok ()
  else if nodeName c = "Diagnostics" then .ok ()
  else if nodeName c = "Packet" then do let _ ← get_packed_values c; .ok ()
  else if nodeName c = "Imported" then textOf c
  else if nodeName c = "HasData" then textOf c
  else if nodeName c = "NumberOfAcquiredSamples" then textOf c
  else if nodeName c = "PacketFileName" then .ok ()
  else .error (.unexpectedNode c "Unexpected node under <Chip> element")

/-- Walk the children of `<Chip>`. -/
def goChip : List Node → Except XadError Unit
  | [] => .ok ()
  | c :: rest => do
    chipChild c
    goChip rest

/-- Embeds `handle_chip(chip)`. -/
def handle_chip (n : Node) : Except XadError Unit :=
  if nodeName n = "Chip" then goChip (childNodesOf n)
  else .error .assertionError

/-- Dispatch for one child of `<Chips>` (`xadder.py:485-491`). -/
def chipsChild (c : Node) : Except XadError Unit :=
  if nodeName c = "Chip" then handle_chip c
  else .error (.unexpectedNode c "Unexpected node under <Chips> element")

/-- Walk the children of `<Chips>`. -/
def goChips : List Node → Except XadError Unit
  | [] => .ok ()
  | c :: rest => do
    chipsChild c
    goChips rest

/-- Embeds `handle_chips(chips)`. -/
def handle_chips (n : Node) : Except XadError Unit :=
  if nodeName n = "Chips" then goChips (childNodesOf n)
  else .error .assertionError

/-- Dispatch for one child of `<Chipset>` (`xadder.py:493-515`). -/
def chipsetChild (c : Node) : Except XadError Unit :=
  if nodeName c = "Method" then .ok ()
  else if nodeName c = "Chips" then handle_chips c
  else if nodeName c = "LogBook" then .ok ()
  else if nodeName c = "FileType" then textOf c
  else if nodeName c = "Type" then textOf c
  else if nodeName c = "Class" then textOf c
  else if nodeName c = "DataType" then textOf c
  else if nodeName c = "ExternalLinks" then textOf c
  else if nodeName c = "PersistSampleSignals" then textOf c
  else .error (.unexpectedNode c "Unexpected node under <Chipset> element")

/-- Walk the children of `<Chipset>`. -/
def goChipset : List Node → Except XadError Unit
  | [] => .ok ()
  | c :: rest => do
    chipsetChild c
    goChipset rest

/-- Embeds `handle_chipset(chipset)`. -/
def handle_chipset (n : Node) : Except XadError Unit :=
  if nodeName n = "Chipset" then goChipset (childNodesOf n)
  else .error .assertionError

/-- Walk the top-level nodes of the decompressed inner document
(`parse_data_xml`, `xadder.py:517-524`): only `<Chipset>` is accepted.
(The string-to-DOM parse itself is the external `parseString`.) -/
def goDataXml : List Node → Except XadError Unit
  | [] => .ok ()
  | c :: rest => do
    (if nodeName c = "Chipset" then handle_chipset c
     else .error (.unexpectedNode c "Unexpected node in embedded Compressed Data XML document"))
    goDataXml rest

/-- Embeds `parse_data_xml` applied to the already-parsed inner document. -/
def parse_data_xml (doc : List Node) : Except XadError Unit := goDataXml doc

/-- Dispatch for one child of `<Preview>` (`handle_preview`,
`xadder.py:148-163`).  The `GelImage` branch Base64-decodes the text and
hands the bytes to the external image sink, whose storage is out of
scope. -/
def previewChild (c : Node) : Except XadError Unit :=
  if nodeName c = "Title" then textOf c
  else if nodeName c = "ChipInfo" then get_table c
  else if nodeName c = "SamplesInfo" then get_table c
  else if nodeName c = "GelImage" then do
    let enc ← get_text c
    match b64decode enc with
    | some _ => .ok ()
    | none => .error .binasciiError
  else .error (.unexpectedNode c "Unexpected node under <Preview> element")

/-- Walk the children of `<Preview>`. -/
def goPreview : List Node → Except XadError Unit
  | [] => .ok ()
  | c :: rest => do
    previewChild c
    goPreview rest

/-- Embeds `handle_preview(node)`. -/
def handle_preview (n : Node) : Except XadError Unit := goPreview (childNodesOf n)

/-- Walk the top-level nodes of the embedded preview document
(`parse_preview_xml`, `xadder.py:165-172`): only `<Preview>` is
accepted. -/
def goPreviewXml : List Node → Except XadError Unit
  | [] => .ok ()
  | c :: rest => do
    (if nodeName c = "Preview" then handle_preview c
     else .error (.unexpectedNode c "Unexpected node in embedded Preview XML document"))
    goPreviewXml rest

/-- Embeds `parse_preview_xml` applied to the already-parsed preview document. -/
def parse_preview_xml (doc : List Node) : Except XadError Unit := goPreviewXml doc

/-! ## The comment sentinel regexes (`xadder.py:84,93,109`)

The three classifying regexes all have the shape
`.*SENTINEL:([0-9a-f-]+):…` under `re.match` with DOTALL.  The leading
greedy `.*` makes the engine try the *latest* occurrence of the sentinel
first and fall back to earlier occurrences when the remainder does not
match; at a fixed occurrence, a greedy character-class group followed by a
`:` (which is outside the class) can only match the maximal run.  The
`*Find` functions below implement exactly this backtracking order.  The
source applies the regexes to the UTF-8 encoding of the comment text; for
these ASCII-delimited patterns the byte-level and the character-level match
coincide, so the embedding works on the characters directly. -/

/-- The character class `[0-9a-f-]`. -/
def isHexDash (c : Char) : Bool := c.isDigit || ('a' ≤ c && c ≤ 'f') || c = '-'

/-- Match `([0-9a-f-]+):([0-9]+):(.*)$` at the current position (the
remainder of the `comment tag:` regex). -/
def matchTagAfter (r : List Char) : Option (List Char × List Char × List Char) :=
  let u := r.takeWhile isHexDash
  match r.dropWhile isHexDash with
  | ':' :: r2 =>
    if u = [] then none
    else
      let d := r2.takeWhile Char.isDigit
      match r2.dropWhile Char.isDigit with
      | ':' :: rest => if d = [] then none else some (u, d, rest)
      | _ => none
  | _ => none

/-- Embeds `re.match(b'.*comment tag:([0-9a-f-]+):([0-9]+):(.*)$', data, re.DOTALL)`:
groups (uuid, sequence number, blob). -/
def tagFind : List Char → Option (List Char × List Char × List Char)
  | [] => none
  | c :: r =>
    match tagFind r with
    | some g => some g
    | none =>
      if List.isPrefixOf ("comment tag:".toList) (c :: r) then
        matchTagAfter ((c :: r).drop 12)
      else none

/-- Match `([0-9a-f-]+):(.*)` at the current position (the remainder of the
`preview infor?mation:` / `header information:` regexes; no end anchor, so
the second group is simply the rest). -/
def matchUuidRest (r : List Char) : Option (List Char × List Char) :=
  let u := r.takeWhile isHexDash
  match r.dropWhile isHexDash with
  | ':' :: rest => if u = [] then none else some (u, rest)
  | _ => none

/-- Embeds `re.match(b'.*preview infor?mation:([0-9a-f-]+):(.*)', data, re.DOTALL)`:
groups (uuid, Base64 payload).  The optional `r` accepts both the correct
and the typo spelling of the sentinel. -/
def previewFind : List Char → Option (List Char × List Char)
  | [] => none
  | c :: r =>
    match previewFind r with
    | some g => some g
    | none =>
      if List.isPrefixOf ("preview information:".toList) (c :: r) then
        matchUuidRest ((c :: r).drop 20)
      else if List.isPrefixOf ("preview infomation:".toList) (c :: r) then
        matchUuidRest ((c :: r).drop 19)
      else none

/-- Embeds `re.match(b'.*header information:([0-9a-f-]+):(.*)', data, re.DOTALL)`:
groups (uuid, Base64 payload). -/
def headerFind : List Char → Option (List Char × List Char)
  | [] => none
  | c :: r =>
    match headerFind r with
    | some g => some g
    | none =>
      if List.isPrefixOf ("header information:".toList) (c :: r) then
        matchUuidRest ((c :: r).drop 19)
      else none

/-! ## The comment envelope decoder (`xad_handle_comment`, `xadder.py:81-118`) -/

/-- The structured content of a decoded preview comment: the uuid, the
preamble re-encoded to UTF-16LE bytes (`xadder.py:102`), and the normalized
embedded XML text handed to `parse_preview_xml`. -/
structure PreviewBundle where
  uuid : List Char
  preamble : List Nat
  previewXml : List Nat
  deriving DecidableEq, Repr

/-- The structured content of one decoded XAD comment (the data model's
`CommentRecord`). -/
inductive CommentRecord where
  | taggedBlob (uuid : List Char) (num : List Char) (blob : List Char)
  | previewBundle (b : PreviewBundle)
  | headerBundle (uuid : List Char) (header : DecodedHeader) (extra : List Nat)
  deriving DecidableEq, Repr

/-- Embeds `xad_handle_comment(node)`: classify the comment by the three sentinels
in order; decode the preview payload (strip `\n` from the Base64 text,
Base64-decode, strict UTF-16LE decode, split with
`(.*)[\x00\x01](.*)\x00`, normalize line endings, parse and walk the
embedded document via the external parser `pXml`); decode the header
payload (Base64-decode, first 76 bytes to `handle_header`, the rest kept
verbatim); reject everything else as an unexpected comment node. -/
def xad_handle_comment (pXml : List Nat → Option (List Node)) (n : Node) :
    Except XadError CommentRecord :=
  match nodeValue n with
  | none => .error .attributeError
  | some data =>
    match tagFind data with
    | some (u, num, blob) => .ok (.taggedBlob u num blob)
    | none =>
      match previewFind data with
      | some (u, b64grp) => do
        let bytes ← match b64decode (b64grp.filter (fun c => c ≠ '\n')) with
          | some bs => Except.ok bs
          | none => Except.error XadError.binasciiError
        let txt ← match utf16leDecode bytes with
          | some t => Except.ok t
          | none => Except.error XadError.unicodeDecodeError
        match xadderPreviewSplit txt with
        | none => .error (.parseFailure "failed to parse preview")
        | some (p, x) =>
          let xml := normalizeNewlines x
          match pXml xml with
          | none => .error .expatError
          | some doc => do
            parse_preview_xml doc
            .ok (.previewBundle ⟨u, utf16leEncode p, xml⟩)
      | none =>
        match headerFind data with
        | some (u, b64grp) => do
          let decoded ← match b64decode b64grp with
            | some bs => Except.ok bs
            | none => Except.error XadError.binasciiError
          let hdr ← handle_header (decoded.take 76)
          .ok (.headerBundle u hdr (decoded.drop 76))
        | none => .error (.unexpectedNode n "Unexpected comment node at XAD top-level")

/-! ## The compressed payload and the document driver
(`parse_xad_file`, `xadder.py:526-555`) -/

/-- Embeds `decoded[0:76]`. -/
def pyHeaderSlice (bs : List Nat) : List Nat := bs.take 76

/-- Embeds `decoded[76:-9]` with Python slice clamping (for a buffer shorter than
85 bytes this is short or empty, never an error). -/
def pyBodySlice (bs : List Nat) : List Nat := (bs.take (bs.length - 9)).drop 76

/-- Embeds `decoded[-9:]` with Python slice clamping (the whole buffer when it is
shorter than 9 bytes). -/
def pyFooterSlice (bs : List Nat) : List Nat := bs.drop (bs.length - 9)

/-- Does `pat` occur as a contiguous run anywhere in the list? -/
def containsSeq (pat : List Char) : List Char → Bool
  | [] => List.isPrefixOf pat []
  | c :: r => List.isPrefixOf pat (c :: r) || containsSeq pat r

/-- Embeds `re.match('.*?(.Oy9.*)$', text, re.DOTALL)`: succeeds iff `Oy9` occurs
in `text` at an index of at least 1 (one character must precede it). -/
def hasOy9 (s : List Char) : Bool := containsSeq ("Oy9".toList) (s.drop 1)

/-- The `compressed_data` branch of `parse_xad_file` (`xadder.py:540-553`):
extract the element text, sanity-check it with the `.Oy9` regex (a bare
`raise` on failure), Base64-decode it, run `handle_header` on the first 76
bytes, inflate `decoded[76:-9]` with raw DEFLATE (the external `inflateF`;
the 9-byte footer is only printed), decode the result as strict UTF-16LE,
parse it with the external parser and walk it with the Chipset schema.
There is no check on the decoded buffer's length anywhere. -/
def handle_compressed_data (inflateF : List Nat → Option (List Nat))
    (pXml : List Nat → Option (List Node)) (child : Node) : Except XadError Unit := do
  let text ← get_text child
  if hasOy9 text then do
    let decoded ← match b64decode text with
      | some bs => Except.ok bs
      | none => Except.error XadError.binasciiError
    let _ ← handle_header (pyHeaderSlice decoded)
    let xmlBytes ← match inflateF (pyBodySlice decoded) with
      | some bs => Except.ok bs
      | none => Except.error XadError.inflateError
    let xmlTxt ← match utf16leDecode xmlBytes with
      | some t => Except.ok t
      | none => Except.error XadError.unicodeDecodeError
    match pXml xmlTxt with
    | some doc => parse_data_xml doc
    | none => .error .expatError
  else .error .bareRaise

/-- Dispatch for one top-level node of the outer XAD document
(`xadder.py:537-555`): comments go to the comment decoder, a
`compressed_data` element to the compressed-payload decoder, anything else
is `UnexpectedNodeError`. -/
def xadChild (inflateF : List Nat → Option (List Nat))
    (pXml : List Nat → Option (List Node)) (c : Node) : Except XadError Unit :=
  if nodeName c = "#comment" then do
    let _ ← xad_handle_comment pXml c
    .ok ()
  else if nodeName c = "compressed_data" then handle_compressed_data inflateF pXml c
  else .error (.unexpectedNode c "Unexpected node in XAD XML document")

/-- Walk the top-level nodes of the outer document. -/
def goXad (inflateF : List Nat → Option (List Nat))
    (pXml : List Nat → Option (List Node)) : List Node → Except XadError Unit
  | [] => .ok ()
  | c :: rest => do
    xadChild inflateF pXml c
    goXad inflateF pXml rest

/-- Embeds `parse_xad_file` applied to the already-parsed outer document (the file
read and the outer XML tokenization are external). -/
def parse_xad_file (inflateF : List Nat → Option (List Nat))
    (pXml : List Nat → Option (List Node)) (doc : List Node) : Except XadError Unit :=
  goXad inflateF pXml doc

/-! # Verified properties -/

/-! ## Small rewriting lemmas for the `Except` monad -/

theorem except_error_bind {ε α β : Type} (e : ε) (f : α → Except ε β) :
    (Except.error e : Except ε α) >>= f = .error e := rfl

theorem except_ok_bind {ε α β : Type} (a : α) (f : α → Except ε β) :
    (Except.ok a : Except ε α) >>= f = f a := rfl

/-! ## C8: the `Text` extraction action (`get_text`) -/

/-- C8. An element whose schema action is text extraction: zero children
yield the empty string; one text child yields its data; one non-text child
is `UnexpectedNode` on that child; more than one child is `UnexpectedNode`
on the element itself. -/
theorem get_text_spec :
    (∀ n : Node, childNodesOf n = [] → get_text n = .ok []) ∧
    (∀ (n : Node) (d : List Char), childNodesOf n = [.text d] → get_text n = .ok d) ∧
    (∀ (n c : Node), childNodesOf n = [c] → c.isText = false →
      get_text n = .error (.unexpectedNode c "Not a text node")) ∧
    (∀ n : Node, 2 ≤ (childNodesOf n).length →
      get_text n = .error (.unexpectedNode n "More than one child node")) := by
  refine ⟨?_, ?_, ?_, ?_⟩
  · intro n h
    simp [get_text, h]
  · intro n d h
    simp [get_text, h]
  · intro n c h hc
    cases c with
    | text d => simp [Node.isText] at hc
    | element nm at_ cs => simp [get_text, h]
    | comment d => simp [get_text, h]
  · intro n h
    match hl : childNodesOf n with
    | [] => rw [hl] at h; simp at h
    | [c] => rw [hl] at h; simp at h
    | a :: b :: t => simp [get_text, hl]

/-- Witness for C8: each of the four cases at a concrete element. -/
theorem get_text_spec_witness :
    get_text (.element "T" [] []) = .ok [] ∧
    get_text (.element "T" [] [.text ['x']]) = .ok ['x'] ∧
    get_text (.element "T" [] [.element "U" [] []]) =
      .error (.unexpectedNode (.element "U" [] []) "Not a text node") ∧
    get_text (.element "T" [] [.text [], .text []]) =
      .error (.unexpectedNode (.element "T" [] [.text [], .text []]) "More than one child node") :=
  ⟨get_text_spec.1 _ rfl, get_text_spec.2.1 _ _ rfl,
   get_text_spec.2.2.1 _ _ rfl rfl, get_text_spec.2.2.2 _ (by decide)⟩

/-! ## C10: the `Table` extraction action (`get_table`) -/

/-- C10. The table extractor used for `ChipInfo`/`SamplesInfo`: zero
children fail with `UnexpectedNode` (unlike `get_text`, which returns the
empty string); more than one child or a single child not named `Table`
fail with `UnexpectedNode`; exactly one child named `Table` succeeds. -/
theorem get_table_spec :
    (∀ n : Node, childNodesOf n = [] →
      get_table n = .error (.unexpectedNode n "Table missing children")) ∧
    (∀ (n c : Node), childNodesOf n = [c] → nodeName c = "Table" → get_table n = .ok ()) ∧
    (∀ (n c : Node), childNodesOf n = [c] → nodeName c ≠ "Table" →
      get_table n = .error (.unexpectedNode c "Not a Table node")) ∧
    (∀ n : Node, 2 ≤ (childNodesOf n).length →
      get_table n = .error (.unexpectedNode n "More than one child node for table")) := by
  refine ⟨?_, ?_, ?_, ?_⟩
  · intro n h
    simp [get_table, h]
  · intro n c h hc
    simp [get_table, h, hc]
  · intro n c h hc
    simp [get_table, h, hc]
  · intro n h
    match hl : childNodesOf n with
    | [] => rw [hl] at h; simp at h
    | [c] => rw [hl] at h; simp at h
    | a :: b :: t => simp [get_table, hl]

/-- Witness for C10: each of the four cases at a concrete element. -/
theorem get_table_spec_witness :
    get_table (.element "ChipInfo" [] []) =
      .error (.unexpectedNode (.element "ChipInfo" [] []) "Table missing children") ∧
    get_table (.element "ChipInfo" [] [.element "Table" [] []]) = .ok () ∧
    get_table (.element "ChipInfo" [] [.element "Row" [] []]) =
      .error (.unexpectedNode (.element "Row" [] []) "Not a Table node") ∧
    get_table (.element "ChipInfo" [] [.text [], .text []]) =
      .error (.unexpectedNode (.element "ChipInfo" [] [.text [], .text []])
        "More than one child node for table") :=
  ⟨get_table_spec.1 _ rfl, get_table_spec.2.1 _ _ rfl rfl,
   get_table_spec.2.2.1 _ _ rfl (by decide), get_table_spec.2.2.2 _ (by decide)⟩

/-! ## C6: the binary header decoder (`handle_header`)

The claim says inputs of fewer than 76 bytes fail with `MalformedHeader`.
The source has no such check (and no such exception class): each
`int.from_bytes(decoded_text[a:b], 'little')` simply reads whatever bytes
the slice yields (zero-extending short slices), and `decoded_text[20:]` is
decoded as UTF-16LE whatever its length.  A 10-byte input therefore
decodes successfully. -/

/-- Counterexample to C6 as stated: a 10-byte (< 76) input does **not**
fail — `handle_header` returns the five zero-extended integers and the
empty string instead of a `MalformedHeader` error. -/
theorem header_short_input_not_rejected :
    handle_header (List.replicate 10 0) = .ok ⟨0, 0, 0, 0, 0, []⟩ := rfl

/-- Embeds `leWord` of the first four entries, written with default-valued
indexing. -/
theorem leWord_take4 (l : List Nat) :
    leWord (l.take 4) =
      l.getD 0 0 + 256 * l.getD 1 0 + 65536 * l.getD 2 0 + 16777216 * l.getD 3 0 := by
  match l with
  | [] => simp [leWord]
  | [a] => simp [leWord]
  | [a, b] => simp [leWord]
  | [a, b, c] => simp [leWord]; ring
  | a :: b :: c :: d :: t => simp [leWord, List.getD]; ring

/-- C6, amended: `handle_header` performs no length validation.  For every
input — short or not — it returns the five little-endian integers read from
byte offsets 0–3, 4–7, 8–11, 12–15, 16–19 (absent bytes reading as zero)
together with the strict UTF-16LE decode of the bytes from offset 20 on;
its only failure mode is that UTF-16 decode failing. -/
theorem header_extraction (bs : List Nat) (s : List Nat)
    (h : utf16leDecode (bs.drop 20) = some s) :
    handle_header bs = .ok
      ⟨bs.getD 0 0 + 256 * bs.getD 1 0 + 65536 * bs.getD 2 0 + 16777216 * bs.getD 3 0,
       bs.getD 4 0 + 256 * bs.getD 5 0 + 65536 * bs.getD 6 0 + 16777216 * bs.getD 7 0,
       bs.getD 8 0 + 256 * bs.getD 9 0 + 65536 * bs.getD 10 0 + 16777216 * bs.getD 11 0,
       bs.getD 12 0 + 256 * bs.getD 13 0 + 65536 * bs.getD 14 0 + 16777216 * bs.getD 15 0,
       bs.getD 16 0 + 256 * bs.getD 17 0 + 65536 * bs.getD 18 0 + 16777216 * bs.getD 19 0,
       s⟩ := by
  have slice : ∀ k i : Nat, (bs.drop k).getD i 0 = bs.getD (k + i) 0 := by
    intro k i
    simp [List.getD, List.getElem?_drop]
  have hw : ∀ k : Nat, leWord ((bs.drop k).take 4) =
      bs.getD k 0 + 256 * bs.getD (k + 1) 0 + 65536 * bs.getD (k + 2) 0 +
        16777216 * bs.getD (k + 3) 0 := by
    intro k
    rw [leWord_take4, slice, slice, slice, slice]
    simp
  simp only [handle_header, h]
  have h0 := hw 0
  have h4 := hw 4
  have h8 := hw 8
  have h12 := hw 12
  have h16 := hw 16
  norm_num at h0 h4 h8 h12 h16 ⊢
  simp [h0, h4, h8, h12, h16]

/-- Witness for C6 (amended) at a full 76-byte input of zeros. -/
theorem header_extraction_witness :
    handle_header (List.replicate 76 0) = .ok ⟨0, 0, 0, 0, 0, List.replicate 28 0⟩ := by
  have h := header_extraction (List.replicate 76 0) (List.replicate 28 0) (by decide)
  exact h.trans (congrArg Except.ok (by decide))

/-! ## C1: every finite schema table rejects an unregistered child

Each handler cascade of the walker ends in
`raise UnexpectedNodeError(child, …)`.  The one table without the final
rejection is `RawSignals` (`xadder.py:431-434`), whose handler set is by
design the set of *all* names (every child is walked as a named raw-signal
set), so no child name is "absent from" it and the claim is vacuous there.
For all fifteen finite tables the property is proved below: a parent of the
matching tag with one child whose name is outside the table fails with
`UnexpectedNode` referencing exactly that child. -/

/-- C1. For every schema handler table with a finite handler set
(`Chipset`, `Chips`, `Chip`, `AssayBody`, `DAAssaySetpoints`,
`DAMAssaySetpoints`, `DASampleSetpoints`, `DALadderSequence`, `Script`,
raw-signal sets, `SignalData`, `Voltage`, `Current`, `Channel`,
`Preview`), an element with a single child whose tag name is absent from
the table fails with `UnexpectedNode` referencing that child and the
parent context. -/
theorem unknown_child_rejected_all_tables :
    (∀ (attrs cattrs : List (String × String)) (cs : List Node) (cn : String),
      cn ∉ ["Method", "Chips", "LogBook", "FileType", "Type", "Class", "DataType", "ExternalLinks", "PersistSampleSignals"] →
      handle_chipset (.element "Chipset" attrs [.element cn cattrs cs]) =
        .error (.unexpectedNode (.element cn cattrs cs) "Unexpected node under <Chipset> element")) ∧
    (∀ (attrs cattrs : List (String × String)) (cs : List Node) (cn : String),
      cn ∉ ["Chip"] →
      handle_chips (.element "Chips" attrs [.element cn cattrs cs]) =
        .error (.unexpectedNode (.element cn cattrs cs) "Unexpected node under <Chips> element")) ∧
    (∀ (attrs cattrs : List (String × String)) (cs : List Node) (cn : String),
      cn ∉ ["ID", "AssayHeader", "AssayBody", "Script", "ChipInformation", "Instrument", "ComPortSettings", "DataStatus", "RawSignals", "Files", "Diagnostics", "Packet", "Imported", "HasData", "NumberOfAcquiredSamples", "PacketFileName"] →
      handle_chip (.element "Chip" attrs [.element cn cattrs cs]) =
        .error (.unexpectedNode (.element cn cattrs cs) "Unexpected node under <Chip> element")) ∧
    (∀ (attrs cattrs : List (String × String)) (cs : List Node) (cn : String),
      cn ∉ ["DAAssaySetpoints", "DASampleSequence", "DASampleSetpoints", "DALadderSequence", "DALadderSetpoints", "UISetpoints", "DADefaultSampleSequence", "DADefaultSampleSetpoints", "DADefaultLadderSequence", "DADefaultLadderSetpoints", "DAChipSequence", "DAChipSetpoints", "DADefaultChipSequence", "DADefaultChipSetpoints", "DefaultUISetPoints"] →
      handle_assay_body (.element "AssayBody" attrs [.element cn cattrs cs]) =
        .error (.unexpectedNode (.element cn cattrs cs) "Unexpected node under <AssayBody> element")) ∧
    (∀ (attrs cattrs : List (String × String)) (cs : List Node) (cn : String),
      cn ∉ ["DAMAssaySetpoints", "DAMAssayInfoCommon", "DAMAssayInfoMolecular", "DAMDefaultAssayInfoMolecular"] →
      handle_da_assay_setpoints (.element "DAAssaySetpoints" attrs [.element cn cattrs cs]) =
        .error (.unexpectedNode (.element cn cattrs cs) "Unexpected node under <DAAssaySetpoints> element")) ∧
    (∀ (attrs cattrs : List (String × String)) (cs : List Node) (cn : String),
      cn ∉ ["xxx"] →
      handle_dam_assay_setpoints (.element "DAMAssaySetpoints" attrs [.element cn cattrs cs]) =
        .error (.unexpectedNode (.element cn cattrs cs) "Unexpected node under <DAMAssaySetpoints> element")) ∧
    (∀ (attrs cattrs : List (String × String)) (cs : List Node) (cn : String),
      cn ∉ ["DAMIntegrator", "DAMPeakManipulation", "DAMAlignment", "DAMConcentration", "DAMSizing", "DAMFragment", "DAMCoMigration", "DAMCalibration", "DAMSmearAnalysis", "DAMRollingBallA", "DAMRollingBallB", "DAMSpikeRejectionA", "DAMSpikeRejectionB", "DAMBaseline", "DAMCommon", "DAMStandardCurve", "DAMSavitzkyGolay", "DAMMarkerDetection", "DAMMarkerThreshold", "DAMLowerMarkerPresent", "DAMBaselineSubstractionOld", "DAMBaselineSubstractionGolovin", "DAMLinearStretchY", "DAMMasterMarkerDetectionRNA", "DAMSystemPeakDetection", "DAMTimeShift", "DAMPrepareRowData", "DAMIntegrator2", "DAMFragment2", "DAMDynamicMarkerDetection", "DAMNoiseCalculation", "DAMDeconvolution", "DAMNoiseFlagging", "DAMDetailing", "DAMPeakPercentOfTotal", "DAMIntegrationRefinement", "DAMLDLCalculation"] →
      handle_da_sample_setpoints (.element "DASampleSetpoints" attrs [.element cn cattrs cs]) =
        .error (.unexpectedNode (.element cn cattrs cs) "Unexpected node under <DASampleSetpoints> element")) ∧
    (∀ (attrs cattrs : List (String × String)) (cs : List Node) (cn : String),
      cn ∉ ["DAMethod"] →
      handle_da_ladder_sequence (.element "DALadderSequence" attrs [.element cn cattrs cs]) =
        .error (.unexpectedNode (.element cn cattrs cs) "Unexpected node under <DALadderSequence> element")) ∧
    (∀ (nm : String) (attrs cattrs : List (String × String)) (cs : List Node) (cn : String),
      cn ∉ ["AllowEdit", "ScriptText"] →
      handle_script nm (.element "Script" attrs [.element cn cattrs cs]) =
        .error (.unexpectedNode (.element cn cattrs cs) ("Unexpected node under " ++ nm ++ " Script element"))) ∧
    (∀ (nm : String) (attrs cattrs : List (String × String)) (cs : List Node) (cn : String),
      cn ∉ ["Channel", "Current", "HasData", "SignalData", "Voltage"] →
      handle_raw_signal_set nm (.element nm attrs [.element cn cattrs cs]) =
        .error (.unexpectedNode (.element cn cattrs cs) ("Unexpected node under " ++ nm ++ " element"))) ∧
    (∀ (attrs cattrs : List (String × String)) (cs : List Node) (cn : String),
      cn ∉ ["AlignmentBias", "AlignmentScale", "ChannelID", "Index", "MaxValue", "MinValue", "Name", "NumberOfSamples", "RawSignal", "ScriptStep", "UnitX", "UnitY", "XMaxVisibleRange", "XMinVisibleRange", "XStart", "XStartAligned", "XStep", "XStepAligned", "YMaxVisibleRange", "YMinVisibleRange"] →
      handle_signal_data (.element "SignalData" attrs [.element cn cattrs cs]) =
        .error (.unexpectedNode (.element cn cattrs cs) "Unexpected node under SignalData element")) ∧
    (∀ (nm : String) (attrs cattrs : List (String × String)) (cs : List Node) (cn : String),
      cn ∉ ["HasData", "SignalData"] →
      handle_voltage nm (.element "Voltage" attrs [.element cn cattrs cs]) =
        .error (.unexpectedNode (.element cn cattrs cs) ("Unexpected node under " ++ nm ++ " Voltage element"))) ∧
    (∀ (nm : String) (attrs cattrs : List (String × String)) (cs : List Node) (cn : String),
      cn ∉ ["HasData", "SignalData"] →
      handle_current nm (.element "Current" attrs [.element cn cattrs cs]) =
        .error (.unexpectedNode (.element cn cattrs cs) ("Unexpected node under " ++ nm ++ " Current element"))) ∧
    (∀ (nm : String) (attrs cattrs : List (String × String)) (cs : List Node) (cn : String),
      cn ∉ ["HasData", "SignalData"] →
      handle_channel nm (.element "Channel" attrs [.element cn cattrs cs]) =
        .error (.unexpectedNode (.element cn cattrs cs) ("Unexpected node under " ++ nm ++ " Channel element"))) ∧
    (∀ (attrs cattrs : List (String × String)) (cs : List Node) (cn : String),
      cn ∉ ["Title", "ChipInfo", "SamplesInfo", "GelImage"] →
      handle_preview (.element "Preview" attrs [.element cn cattrs cs]) =
        .error (.unexpectedNode (.element cn cattrs cs) "Unexpected node under <Preview> element")) := by
  refine ⟨?_, ?_, ?_, ?_, ?_, ?_, ?_, ?_, ?_, ?_, ?_, ?_, ?_, ?_, ?_⟩
  · intro attrs cattrs cs cn h
    simp only [List.mem_cons, List.mem_singleton, not_or] at h
    obtain ⟨h1,h2,h3,h4,h5,h6,h7,h8,h9⟩ := h
    simp [handle_chipset, goChipset, chipsetChild, nodeName, childNodesOf, except_error_bind, h1,h2,h3,h4,h5,h6,h7,h8,h9]
  · intro attrs cattrs cs cn h
    simp only [List.mem_cons, List.mem_singleton, not_or] at h
    have h1 := h
    simp [handle_chips, goChips, chipsChild, nodeName, childNodesOf, except_error_bind, h1]
  · intro attrs cattrs cs cn h
    simp only [List.mem_cons, List.mem_singleton, not_or] at h
    obtain ⟨h1,h2,h3,h4,h5,h6,h7,h8,h9,h10,h11,h12,h13,h14,h15,h16⟩ := h
    simp [handle_chip, goChip, chipChild, nodeName, childNodesOf, except_error_bind, h1,h2,h3,h4,h5,h6,h7,h8,h9,h10,h11,h12,h13,h14,h15,h16]
  · intro attrs cattrs cs cn h
    simp only [List.mem_cons, List.mem_singleton, not_or] at h
    obtain ⟨h1,h2,h3,h4,h5,h6,h7,h8,h9,h10,h11,h12,h13,h14,h15⟩ := h
    simp [handle_assay_body, goAssayBody, assayBodyChild, nodeName, childNodesOf, except_error_bind, h1,h2,h3,h4,h5,h6,h7,h8,h9,h10,h11,h12,h13,h14,h15]
  · intro attrs cattrs cs cn h
    simp only [List.mem_cons, List.mem_singleton, not_or] at h
    obtain ⟨h1,h2,h3,h4⟩ := h
    simp [handle_da_assay_setpoints, goDaAssaySetpoints, daAssaySetpointsChild, nodeName, childNodesOf, except_error_bind, h1,h2,h3,h4]
  · intro attrs cattrs cs cn h
    simp only [List.mem_cons, List.mem_singleton, not_or] at h
    have h1 := h
    simp [handle_dam_assay_setpoints, goDamAssaySetpoints, damAssaySetpointsChild, nodeName, childNodesOf, except_error_bind, h1]
  · intro attrs cattrs cs cn h
    simp only [List.mem_cons, List.mem_singleton, not_or] at h
    obtain ⟨h1,h2,h3,h4,h5,h6,h7,h8,h9,h10,h11,h12,h13,h14,h15,h16,h17,h18,h19,h20,h21,h22,h23,h24,h25,h26,h27,h28,h29,h30,h31,h32,h33,h34,h35,h36,h37⟩ := h
    simp [handle_da_sample_setpoints, goDaSampleSetpoints, daSampleSetpointsChild, nodeName, childNodesOf, except_error_bind, h1,h2,h3,h4,h5,h6,h7,h8,h9,h10,h11,h12,h13,h14,h15,h16,h17,h18,h19,h20,h21,h22,h23,h24,h25,h26,h27,h28,h29,h30,h31,h32,h33,h34,h35,h36,h37]
  · intro attrs cattrs cs cn h
    simp only [List.mem_cons, List.mem_singleton, not_or] at h
    have h1 := h
    simp [handle_da_ladder_sequence, goDaLadderSequence, daLadderSequenceChild, nodeName, childNodesOf, except_error_bind, h1]
  · intro nm attrs cattrs cs cn h
    simp only [List.mem_cons, List.mem_singleton, not_or] at h
    obtain ⟨h1,h2⟩ := h
    simp [handle_script, goScript, scriptChild, nodeName, childNodesOf, except_error_bind, h1,h2]
  · intro nm attrs cattrs cs cn h
    simp only [List.mem_cons, List.mem_singleton, not_or] at h
    obtain ⟨h1,h2,h3,h4,h5⟩ := h
    simp [handle_raw_signal_set, goRawSignalSet, rawSignalSetChild, nodeName, childNodesOf, except_error_bind, h1,h2,h3,h4,h5]
  · intro attrs cattrs cs cn h
    simp only [List.mem_cons, List.mem_singleton, not_or] at h
    obtain ⟨h1,h2,h3,h4,h5,h6,h7,h8,h9,h10,h11,h12,h13,h14,h15,h16,h17,h18,h19,h20⟩ := h
    simp [handle_signal_data, goSignalData, signalDataChild, nodeName, childNodesOf, except_error_bind, h1,h2,h3,h4,h5,h6,h7,h8,h9,h10,h11,h12,h13,h14,h15,h16,h17,h18,h19,h20]
  · intro nm attrs cattrs cs cn h
    simp only [List.mem_cons, List.mem_singleton, not_or] at h
    obtain ⟨h1,h2⟩ := h
    simp [handle_voltage, goVoltage, voltageChild, nodeName, childNodesOf, except_error_bind, h1,h2]
  · intro nm attrs cattrs cs cn h
    simp only [List.mem_cons, List.mem_singleton, not_or] at h
    obtain ⟨h1,h2⟩ := h
    simp [handle_current, goCurrent, currentChild, nodeName, childNodesOf, except_error_bind, h1,h2]
  · intro nm attrs cattrs cs cn h
    simp only [List.mem_cons, List.mem_singleton, not_or] at h
    obtain ⟨h1,h2⟩ := h
    simp [handle_channel, goChannel, channelChild, nodeName, childNodesOf, except_error_bind, h1,h2]
  · intro attrs cattrs cs cn h
    simp only [List.mem_cons, List.mem_singleton, not_or] at h
    obtain ⟨h1,h2,h3,h4⟩ := h
    simp [handle_preview, goPreview, previewChild, nodeName, childNodesOf, except_error_bind, h1,h2,h3,h4]

/-- Witness for C1: one concrete unregistered child name (`Zzz`) per
table. -/
theorem unknown_child_rejected_all_tables_witness :
    handle_chipset (.element "Chipset" [] [.element "Zzz" [] []]) =
      .error (.unexpectedNode (.element "Zzz" [] []) "Unexpected node under <Chipset> element") ∧
    handle_chips (.element "Chips" [] [.element "Zzz" [] []]) =
      .error (.unexpectedNode (.element "Zzz" [] []) "Unexpected node under <Chips> element") ∧
    handle_chip (.element "Chip" [] [.element "Zzz" [] []]) =
      .error (.unexpectedNode (.element "Zzz" [] []) "Unexpected node under <Chip> element") ∧
    handle_assay_body (.element "AssayBody" [] [.element "Zzz" [] []]) =
      .error (.unexpectedNode (.element "Zzz" [] []) "Unexpected node under <AssayBody> element") ∧
    handle_da_assay_setpoints (.element "DAAssaySetpoints" [] [.element "Zzz" [] []]) =
      .error (.unexpectedNode (.element "Zzz" [] []) "Unexpected node under <DAAssaySetpoints> element") ∧
    handle_dam_assay_setpoints (.element "DAMAssaySetpoints" [] [.element "Zzz" [] []]) =
      .error (.unexpectedNode (.element "Zzz" [] []) "Unexpected node under <DAMAssaySetpoints> element") ∧
    handle_da_sample_setpoints (.element "DASampleSetpoints" [] [.element "Zzz" [] []]) =
      .error (.unexpectedNode (.element "Zzz" [] []) "Unexpected node under <DASampleSetpoints> element") ∧
    handle_da_ladder_sequence (.element "DALadderSequence" [] [.element "Zzz" [] []]) =
      .error (.unexpectedNode (.element "Zzz" [] []) "Unexpected node under <DALadderSequence> element") ∧
    handle_script "Chip" (.element "Script" [] [.element "Zzz" [] []]) =
      .error (.unexpectedNode (.element "Zzz" [] []) ("Unexpected node under " ++ "Chip" ++ " Script element")) ∧
    handle_raw_signal_set "Sig" (.element "Sig" [] [.element "Zzz" [] []]) =
      .error (.unexpectedNode (.element "Zzz" [] []) ("Unexpected node under " ++ "Sig" ++ " element")) ∧
    handle_signal_data (.element "SignalData" [] [.element "Zzz" [] []]) =
      .error (.unexpectedNode (.element "Zzz" [] []) "Unexpected node under SignalData element") ∧
    handle_voltage "Chip" (.element "Voltage" [] [.element "Zzz" [] []]) =
      .error (.unexpectedNode (.element "Zzz" [] []) ("Unexpected node under " ++ "Chip" ++ " Voltage element")) ∧
    handle_current "Chip" (.element "Current" [] [.element "Zzz" [] []]) =
      .error (.unexpectedNode (.element "Zzz" [] []) ("Unexpected node under " ++ "Chip" ++ " Current element")) ∧
    handle_channel "Chip" (.element "Channel" [] [.element "Zzz" [] []]) =
      .error (.unexpectedNode (.element "Zzz" [] []) ("Unexpected node under " ++ "Chip" ++ " Channel element")) ∧
    handle_preview (.element "Preview" [] [.element "Zzz" [] []]) =
      .error (.unexpectedNode (.element "Zzz" [] []) "Unexpected node under <Preview> element") :=
  ⟨unknown_child_rejected_all_tables.1 [] [] [] "Zzz" (by decide),
unknown_child_rejected_all_tables.2.1 [] [] [] "Zzz" (by decide),
unknown_child_rejected_all_tables.2.2.1 [] [] [] "Zzz" (by decide),
unknown_child_rejected_all_tables.2.2.2.1 [] [] [] "Zzz" (by decide),
unknown_child_rejected_all_tables.2.2.2.2.1 [] [] [] "Zzz" (by decide),
unknown_child_rejected_all_tables.2.2.2.2.2.1 [] [] [] "Zzz" (by decide),
unknown_child_rejected_all_tables.2.2.2.2.2.2.1 [] [] [] "Zzz" (by decide),
unknown_child_rejected_all_tables.2.2.2.2.2.2.2.1 [] [] [] "Zzz" (by decide),
unknown_child_rejected_all_tables.2.2.2.2.2.2.2.2.1 "Chip" [] [] [] "Zzz" (by decide),
unknown_child_rejected_all_tables.2.2.2.2.2.2.2.2.2.1 "Sig" [] [] [] "Zzz" (by decide),
unknown_child_rejected_all_tables.2.2.2.2.2.2.2.2.2.2.1 [] [] [] "Zzz" (by decide),
unknown_child_rejected_all_tables.2.2.2.2.2.2.2.2.2.2.2.1 "Chip" [] [] [] "Zzz" (by decide),
unknown_child_rejected_all_tables.2.2.2.2.2.2.2.2.2.2.2.2.1 "Chip" [] [] [] "Zzz" (by decide),
unknown_child_rejected_all_tables.2.2.2.2.2.2.2.2.2.2.2.2.2.1 "Chip" [] [] [] "Zzz" (by decide),
unknown_child_rejected_all_tables.2.2.2.2.2.2.2.2.2.2.2.2.2.2 [] [] [] "Zzz" (by decide)⟩

/-! ## C3: packed-array length checking -/

/-- Embeds `unpackN` always produces exactly `n` values. -/
theorem unpackN_length (w n : Nat) (bs : List Nat) : (unpackN w n bs).length = n := by
  induction n generalizing bs with
  | zero => simp [unpackN]
  | succ m ih => simp [unpackN, ih]

/-- C3.  First conjunct: whenever the Base64 body of a packed-value
element decodes to a byte string whose length is not
`numvalues × element-width`, `get_packed_values` fails with the
length-mismatch error (`struct.error`), for each of the three supported
`vartype`s and in both directions of the mismatch.  Second conjunct: every
successfully returned array has exactly `numvalues` elements. -/
theorem packed_length_checked :
    (∀ (tag : String) (attrs : List (String × String)) (cs : List Node)
       (nstr vt : String) (N : Int) (w : Nat) (enc : List Char) (bytes : List Nat),
      getAttr attrs "numvalues" = some nstr → pyInt nstr = some N → 0 ≤ N →
      getAttr attrs "vartype" = some vt →
      (vt = "LE_R4" ∧ w = 4 ∨ vt = "LE_I2" ∧ w = 2 ∨ vt = "LE_UI1" ∧ w = 1) →
      get_text (.element tag attrs cs) = .ok enc →
      b64decode enc = some bytes →
      bytes.length ≠ N.toNat * w →
      get_packed_values (.element tag attrs cs) = .error .arrayLengthMismatch) ∧
    (∀ (tag : String) (attrs : List (String × String)) (cs : List Node)
       (arr : PackedArray) (nstr : String) (N : Int),
      get_packed_values (.element tag attrs cs) = .ok arr →
      getAttr attrs "numvalues" = some nstr → pyInt nstr = some N →
      arr.size = N.toNat) := by
  constructor
  · intro tag attrs cs nstr vt N w enc bytes hn hp hNpos hv hw ht hb hne
    have hnN : ¬(N < 0) := by omega
    rcases hw with ⟨rfl, rfl⟩ | ⟨rfl, rfl⟩ | ⟨rfl, rfl⟩ <;>
      simp [get_packed_values, hn, hp, hv, ht, hb, hnN, hne,
        except_ok_bind, except_error_bind]
    all_goals simpa using hne
  · intro tag attrs cs arr nstr N h hn hp
    simp only [get_packed_values, hn, hp, except_ok_bind] at h
    cases hv : getAttr attrs "vartype" with
    | none => simp [hv, except_error_bind] at h
    | some vt =>
      simp only [hv, except_ok_bind] at h
      cases ht : get_text (.element tag attrs cs) with
      | error e =>
        by_cases h4 : vt = "LE_R4" <;> by_cases h2 : vt = "LE_I2" <;>
          by_cases h1 : vt = "LE_UI1" <;>
          simp [h4, h2, h1, ht, except_error_bind, except_ok_bind] at h
      | ok enc =>
        cases hb : b64decode enc with
        | none =>
          by_cases h4 : vt = "LE_R4" <;> by_cases h2 : vt = "LE_I2" <;>
            by_cases h1 : vt = "LE_UI1" <;>
            simp [h4, h2, h1, ht, hb, except_error_bind, except_ok_bind] at h
        | some bytes =>
          by_cases hneg : N < 0
          · by_cases h4 : vt = "LE_R4" <;> by_cases h2 : vt = "LE_I2" <;>
              by_cases h1 : vt = "LE_UI1" <;>
              simp [h4, h2, h1, ht, hb, hneg, except_error_bind, except_ok_bind] at h
          · by_cases h4 : vt = "LE_R4"
            · by_cases hl : bytes.length = N.toNat * 4
              · simp [h4, ht, hb, hneg, hl, except_ok_bind] at h
                rw [← h]
                simp [PackedArray.size, unpackN_length]
              · simp [h4, ht, hb, hneg, hl, except_ok_bind] at h
            · by_cases h2 : vt = "LE_I2"
              · by_cases hl : bytes.length = N.toNat * 2
                · simp [h4, h2, ht, hb, hneg, hl, except_ok_bind] at h
                  rw [← h]
                  simp [PackedArray.size, unpackN_length]
                · simp [h4, h2, ht, hb, hneg, hl, except_ok_bind] at h
              · by_cases h1 : vt = "LE_UI1"
                · by_cases hl : bytes.length = N.toNat
                  · simp [h4, h2, h1, ht, hb, hneg, hl, except_ok_bind] at h
                    rw [← h]
                    simp [PackedArray.size, unpackN_length]
                  · simp [h4, h2, h1, ht, hb, hneg, hl, except_ok_bind] at h
                · simp [h4, h2, h1, ht, hb, hneg, except_error_bind, except_ok_bind] at h

/-- Witness for C3: `numvalues=5` over a 16-byte float body fails with the
length mismatch (the spec's own test vector), and a successful `LE_UI1`
decode of three bytes has exactly three elements. -/
theorem packed_length_checked_witness :
    get_packed_values (.element "RawSignal"
        [("numvalues", "5"), ("vartype", "LE_R4")]
        [.text (b64encode (List.replicate 16 0))]) = .error .arrayLengthMismatch ∧
    PackedArray.size (.uint8 [7, 8, 9]) = (3 : Int).toNat := by
  constructor
  · exact packed_length_checked.1 "RawSignal" _ _ "5" "LE_R4" 5 4
      (b64encode (List.replicate 16 0)) (List.replicate 16 0)
      rfl (by decide) (by decide) rfl (Or.inl ⟨rfl, rfl⟩) rfl (by decide) (by decide)
  · exact packed_length_checked.2 "RawSignal"
      [("numvalues", "3"), ("vartype", "LE_UI1")] [.text (b64encode [7, 8, 9])]
      (.uint8 [7, 8, 9]) "3" 3 rfl rfl (by decide)

/-! ## C2: packed-value round trip -/

/-- The spec-side encoder: consecutive little-endian fixed-width values
(the byte layout the instrument writes and §4.2 reads back). -/
def packLE (w : Nat) : List Nat → List Nat
  | [] => []
  | x :: r => toLEBytes w x ++ packLE w r

theorem b64Index_b64Char : ∀ s : Nat, s < 64 → b64Index (b64Char s) = some s := by decide

theorem isB64OrPad_b64Char : ∀ s : Nat, s < 64 → isB64OrPad (b64Char s) = true := by decide

theorem b64Char_ne_pad : ∀ s : Nat, s < 64 → b64Char s ≠ '=' := by decide

/-- Every character `b64encode` emits survives the `b64decode` filter. -/
theorem b64encode_chars : ∀ bs : List Nat, (∀ b ∈ bs, b < 256) →
    ∀ c ∈ b64encode bs, isB64OrPad c = true
  | [], _, c, hc => by simp [b64encode] at hc
  | [b1], h, c, hc => by
    have h1 : b1 < 256 := h b1 (by simp)
    simp [b64encode] at hc
    rcases hc with rfl | rfl | rfl
    · exact isB64OrPad_b64Char _ (by omega)
    · exact isB64OrPad_b64Char _ (by omega)
    · simp [isB64OrPad]
  | [b1, b2], h, c, hc => by
    have h1 : b1 < 256 := h b1 (by simp)
    have h2 : b2 < 256 := h b2 (by simp)
    simp [b64encode] at hc
    rcases hc with rfl | rfl | rfl | rfl
    · exact isB64OrPad_b64Char _ (by omega)
    · exact isB64OrPad_b64Char _ (by omega)
    · exact isB64OrPad_b64Char _ (by omega)
    · simp [isB64OrPad]
  | b1 :: b2 :: b3 :: r, h, c, hc => by
    have h1 : b1 < 256 := h b1 (by simp)
    have h2 : b2 < 256 := h b2 (by simp)
    have h3 : b3 < 256 := h b3 (by simp)
    simp only [b64encode, List.mem_cons] at hc
    rcases hc with rfl | rfl | rfl | rfl | hc
    · exact isB64OrPad_b64Char _ (by omega)
    · exact isB64OrPad_b64Char _ (by omega)
    · exact isB64OrPad_b64Char _ (by omega)
    · exact isB64OrPad_b64Char _ (by omega)
    · exact b64encode_chars r (fun b hb => h b (by simp [hb])) c hc

/-- Decoding inverts encoding on the already-filtered text. -/
theorem b64decode_encode : ∀ bs : List Nat, (∀ b ∈ bs, b < 256) →
    b64decodeStripped (b64encode bs) = some bs
  | [], _ => rfl
  | [b1], h => by
    have h1 : b1 < 256 := h b1 (by simp)
    simp only [b64encode, b64decodeStripped,
      b64Index_b64Char (b1 / 4) (by omega), b64Index_b64Char (b1 % 4 * 16) (by omega)]
    simp
    omega
  | [b1, b2], h => by
    have h1 : b1 < 256 := h b1 (by simp)
    have h2 : b2 < 256 := h b2 (by simp)
    have hne3 : (b64Char (b2 % 16 * 4) = '=') ↔ False :=
      iff_false_intro (b64Char_ne_pad (b2 % 16 * 4) (by omega))
    simp only [b64encode, b64decodeStripped,
      b64Index_b64Char (b1 / 4) (by omega),
      b64Index_b64Char (b1 % 4 * 16 + b2 / 16) (by omega),
      b64Index_b64Char (b2 % 16 * 4) (by omega), hne3]
    simp
    omega
  | b1 :: b2 :: b3 :: r, h => by
    have h1 : b1 < 256 := h b1 (by simp)
    have h2 : b2 < 256 := h b2 (by simp)
    have h3 : b3 < 256 := h b3 (by simp)
    have ih := b64decode_encode r (fun b hb => h b (by simp [hb]))
    have hne3 : (b64Char (b2 % 16 * 4 + b3 / 64) = '=') ↔ False :=
      iff_false_intro (b64Char_ne_pad (b2 % 16 * 4 + b3 / 64) (by omega))
    have hne4 : (b64Char (b3 % 64) = '=') ↔ False :=
      iff_false_intro (b64Char_ne_pad (b3 % 64) (by omega))
    simp only [b64encode, b64decodeStripped,
      b64Index_b64Char (b1 / 4) (by omega),
      b64Index_b64Char (b1 % 4 * 16 + b2 / 16) (by omega),
      b64Index_b64Char (b2 % 16 * 4 + b3 / 64) (by omega),
      b64Index_b64Char (b3 % 64) (by omega), hne3, hne4, ih, if_false]
    simp
    omega

/-- Base64 round trip on byte strings. -/
theorem b64_roundtrip (bs : List Nat) (h : ∀ b ∈ bs, b < 256) :
    b64decode (b64encode bs) = some bs := by
  unfold b64decode
  rw [List.filter_eq_self.mpr (b64encode_chars bs h), b64decode_encode bs h]

theorem toLEBytes_length (w x : Nat) : (toLEBytes w x).length = w := by
  induction w generalizing x with
  | zero => rfl
  | succ n ih => simp [toLEBytes, ih]

theorem toLEBytes_lt (w x : Nat) : ∀ b ∈ toLEBytes w x, b < 256 := by
  induction w generalizing x with
  | zero => simp [toLEBytes]
  | succ n ih =>
    intro b hb
    simp only [toLEBytes, List.mem_cons] at hb
    rcases hb with rfl | hb
    · omega
    · exact ih (x / 256) b hb

theorem leWord_toLEBytes (w x : Nat) (h : x < 256 ^ w) : leWord (toLEBytes w x) = x := by
  induction w generalizing x with
  | zero => simp [pow_zero] at h; simp [toLEBytes, leWord, h]
  | succ n ih =>
    have hdiv : x / 256 < 256 ^ n := by
      rw [Nat.div_lt_iff_lt_mul (by norm_num)]
      calc x < 256 ^ (n + 1) := h
        _ = 256 ^ n * 256 := by ring
    simp only [toLEBytes, leWord, ih (x / 256) hdiv]
    omega

theorem packLE_lt (w : Nat) (ws : List Nat) : ∀ b ∈ packLE w ws, b < 256 := by
  induction ws with
  | nil => simp [packLE]
  | cons x r ih =>
    intro b hb
    simp only [packLE, List.mem_append] at hb
    rcases hb with hb | hb
    · exact toLEBytes_lt w x b hb
    · exact ih b hb

theorem packLE_length (w : Nat) (ws : List Nat) : (packLE w ws).length = ws.length * w := by
  induction ws with
  | nil => simp [packLE]
  | cons x r ih => simp [packLE, toLEBytes_length, ih]; ring

/-- Unpacking inverts packing: `struct.unpack` recovers the values the
little-endian layout was built from. -/
theorem unpackN_packLE (w : Nat) (ws : List Nat) (h : ∀ x ∈ ws, x < 256 ^ w) :
    unpackN w ws.length (packLE w ws) = ws := by
  induction ws with
  | nil => simp [unpackN]
  | cons x r ih =>
    have hx : x < 256 ^ w := h x (by simp)
    have htake : (toLEBytes w x ++ packLE w r).take w = toLEBytes w x := by
      rw [List.take_left' (toLEBytes_length w x)]
    have hdrop : (toLEBytes w x ++ packLE w r).drop w = packLE w r := by
      rw [List.drop_left' (toLEBytes_length w x)]
    simp only [List.length_cons, unpackN, packLE, htake, hdrop,
      leWord_toLEBytes w x hx, ih (fun y hy => h y (by simp [hy]))]

/-- The signed 16-bit reinterpretation inverts the two's-complement
encoding on the representable range. -/
theorem fromInt16_toUInt16bits (v : Int) (h : -32768 ≤ v ∧ v < 32768) :
    fromInt16 (toUInt16bits v) = v := by
  simp only [fromInt16, toUInt16bits]
  omega

theorem toUInt16bits_lt (v : Int) : toUInt16bits v < 65536 := by
  simp only [toUInt16bits]
  omega

/-- C2.  Packed-value round trip: for every sequence of values encoded as
consecutive little-endian fixed-width values and then Base64, decoding the
element with matching `numvalues` and `vartype` returns exactly the
original sequence — 32-bit words for `LE_R4` (the decoder is structural,
so a float is its bit pattern), signed 16-bit integers for `LE_I2`
(two's-complement layout), bytes for `LE_UI1`. -/
theorem packed_roundtrip :
    (∀ (tag : String) (attrs : List (String × String)) (nstr : String) (ws : List Nat),
      (∀ x ∈ ws, x < 2 ^ 32) →
      getAttr attrs "numvalues" = some nstr → pyInt nstr = some (ws.length : Int) →
      getAttr attrs "vartype" = some "LE_R4" →
      get_packed_values (.element tag attrs [.text (b64encode (packLE 4 ws))]) =
        .ok (.float32 ws)) ∧
    (∀ (tag : String) (attrs : List (String × String)) (nstr : String) (vs : List Int),
      (∀ v ∈ vs, -32768 ≤ v ∧ v < 32768) →
      getAttr attrs "numvalues" = some nstr → pyInt nstr = some (vs.length : Int) →
      getAttr attrs "vartype" = some "LE_I2" →
      get_packed_values
          (.element tag attrs [.text (b64encode (packLE 2 (vs.map toUInt16bits)))]) =
        .ok (.int16 vs)) ∧
    (∀ (tag : String) (attrs : List (String × String)) (nstr : String) (vs : List Nat),
      (∀ v ∈ vs, v < 256) →
      getAttr attrs "numvalues" = some nstr → pyInt nstr = some (vs.length : Int) →
      getAttr attrs "vartype" = some "LE_UI1" →
      get_packed_values (.element tag attrs [.text (b64encode (packLE 1 vs))]) =
        .ok (.uint8 vs)) := by
  refine ⟨?_, ?_, ?_⟩
  · intro tag attrs nstr ws hb hn hp hv
    have hdec := b64_roundtrip (packLE 4 ws) (packLE_lt 4 ws)
    have hlen : (packLE 4 ws).length = ws.length * 4 := packLE_length 4 ws
    have hup : unpackN 4 ws.length (packLE 4 ws) = ws := by
      refine unpackN_packLE 4 ws ?_
      intro x hx
      have := hb x hx
      norm_num at this ⊢
      omega
    simp [get_packed_values, hn, hp, hv, except_ok_bind, get_text, childNodesOf,
      hdec, hlen, hup]
  · intro tag attrs nstr vs hb hn hp hv
    have hdec := b64_roundtrip (packLE 2 (vs.map toUInt16bits))
      (packLE_lt 2 (vs.map toUInt16bits))
    have hlen : (packLE 2 (vs.map toUInt16bits)).length = vs.length * 2 := by
      rw [packLE_length, List.length_map]
    have hup : unpackN 2 vs.length (packLE 2 (vs.map toUInt16bits)) = vs.map toUInt16bits := by
      have := unpackN_packLE 2 (vs.map toUInt16bits)
        (fun x hx => by
          obtain ⟨v, hv', rfl⟩ := List.mem_map.mp hx
          have := toUInt16bits_lt v
          norm_num
          omega)
      simpa [List.length_map] using this
    have hmap : (vs.map toUInt16bits).map fromInt16 = vs := by
      rw [List.map_map]
      have : ∀ v ∈ vs, (fromInt16 ∘ toUInt16bits) v = id v := by
        intro v hv'
        simp only [Function.comp_apply, id_eq]
        exact fromInt16_toUInt16bits v (hb v hv')
      rw [List.map_congr_left this, List.map_id]
    simp [get_packed_values, hn, hp, hv, except_ok_bind, get_text, childNodesOf,
      hdec, hlen, hup, hmap]
  · intro tag attrs nstr vs hb hn hp hv
    have hdec := b64_roundtrip (packLE 1 vs) (packLE_lt 1 vs)
    have hlen : (packLE 1 vs).length = vs.length * 1 := packLE_length 1 vs
    have hup : unpackN 1 vs.length (packLE 1 vs) = vs := by
      refine unpackN_packLE 1 vs ?_
      intro x hx
      have := hb x hx
      norm_num
      omega
    simp [get_packed_values, hn, hp, hv, except_ok_bind, get_text, childNodesOf,
      hdec, hlen, hup]

/-- Witness for C2: one concrete round trip per `vartype`. -/
theorem packed_roundtrip_witness :
    get_packed_values (.element "RawSignal" [("numvalues", "2"), ("vartype", "LE_R4")]
        [.text (b64encode (packLE 4 [1, 2]))]) = .ok (.float32 [1, 2]) ∧
    get_packed_values (.element "RawSignal" [("numvalues", "2"), ("vartype", "LE_I2")]
        [.text (b64encode (packLE 2 ([-1, 5].map toUInt16bits)))]) = .ok (.int16 [-1, 5]) ∧
    get_packed_values (.element "ScriptText" [("numvalues", "3"), ("vartype", "LE_UI1")]
        [.text (b64encode (packLE 1 [7, 8, 9]))]) = .ok (.uint8 [7, 8, 9]) :=
  ⟨packed_roundtrip.1 "RawSignal" _ "2" [1, 2] (by decide) rfl (by decide) rfl,
   packed_roundtrip.2.1 "RawSignal" _ "2" [-1, 5] (by decide) rfl (by decide) rfl,
   packed_roundtrip.2.2 "ScriptText" _ "3" [7, 8, 9] (by decide) rfl (by decide) rfl⟩

/-! ## C4: compressed-payload framing

The claim says a Base64-decoded buffer shorter than 85 bytes makes the
decoder fail before inflating.  The source (`xadder.py:546-552`) contains
no length check at all: Python slicing clamps, so a short buffer produces
a short header slice, a short or empty body, an overlapping footer — and
the pipeline carries on into `inflate`.  For buffers of at least 85 bytes
the 76/middle/9 decomposition is exactly as described. -/

/-- Counterexample to C4 as stated: a `compressed_data` element whose
Base64 text decodes to only 84 bytes is **not** rejected before
inflation — with an inflation that returns empty output the decoder runs
all the way into the external XML parser (its failure here, `expatError`,
arises *after* the inflate step that the claim says is never reached). -/
theorem compressed_short_buffer_not_rejected :
    (b64decode (("AOy9" ++ String.join (List.replicate 27 "AAAA")).toList)).map List.length
      = some 84 ∧
    handle_compressed_data (fun _ => some []) (fun _ => none)
      (.element "compressed_data" []
        [.text (("AOy9" ++ String.join (List.replicate 27 "AAAA")).toList)]) =
      .error .expatError := ⟨rfl, rfl⟩

/-- C4, amended: no minimum-length check is performed.  For a decoded
buffer of at least 85 bytes, the buffer decomposes exactly as
76-byte header ∥ compressed body ∥ 9-byte opaque footer (first conjunct);
and for *any* decoded buffer, short or not, once the element text passes
the `.Oy9` sanity regex and Base64 decoding, the decoder always proceeds
to inflation of the (possibly degenerate) body slice — an inflation
failure surfaces as the inflate error, never as a length error (second
conjunct). -/
theorem compressed_framing :
    (∀ bs : List Nat, 85 ≤ bs.length →
      bs = pyHeaderSlice bs ++ pyBodySlice bs ++ pyFooterSlice bs ∧
      (pyHeaderSlice bs).length = 76 ∧ (pyFooterSlice bs).length = 9) ∧
    (∀ (inflateF : List Nat → Option (List Nat)) (pXml : List Nat → Option (List Node))
       (tag : String) (attrs : List (String × String)) (cs : List Node)
       (text : List Char) (decoded s : List Nat),
      get_text (.element tag attrs cs) = .ok text →
      hasOy9 text = true →
      b64decode text = some decoded →
      utf16leDecode ((pyHeaderSlice decoded).drop 20) = some s →
      inflateF (pyBodySlice decoded) = none →
      handle_compressed_data inflateF pXml (.element tag attrs cs) =
        .error .inflateError) := by
  constructor
  · intro bs h
    refine ⟨?_, ?_, ?_⟩
    · have h76 : pyHeaderSlice bs = (bs.take (bs.length - 9)).take 76 := by
        unfold pyHeaderSlice
        rw [List.take_take]
        congr 1
        omega
      unfold pyBodySlice pyFooterSlice
      rw [h76, List.take_append_drop, List.take_append_drop]
    · unfold pyHeaderSlice
      simp
      omega
    · unfold pyFooterSlice
      simp
      omega
  · intro inflateF pXml tag attrs cs text decoded s ht hoy hb hutf hinf
    simp [handle_compressed_data, ht, hoy, hb, hutf, hinf, handle_header,
      except_ok_bind, except_error_bind]

/-- Witness for C4 (amended): the decomposition at an 85-byte buffer, and
the inflate-reaching run at the 84-byte buffer of the counterexample. -/
theorem compressed_framing_witness :
    (List.replicate 85 0 =
      pyHeaderSlice (List.replicate 85 0) ++ pyBodySlice (List.replicate 85 0) ++
        pyFooterSlice (List.replicate 85 0) ∧
      (pyHeaderSlice (List.replicate 85 0)).length = 76 ∧
      (pyFooterSlice (List.replicate 85 0)).length = 9) ∧
    handle_compressed_data (fun _ => none) (fun _ => none)
      (.element "compressed_data" []
        [.text (("AOy9" ++ String.join (List.replicate 27 "AAAA")).toList)]) =
      .error .inflateError :=
  ⟨compressed_framing.1 (List.replicate 85 0) (by decide),
   compressed_framing.2 (fun _ => none) (fun _ => none) "compressed_data" [] _
     (("AOy9" ++ String.join (List.replicate 27 "AAAA")).toList)
     (List.cons 0 (List.cons 236 (List.cons 189 (List.replicate 81 0))))
     (List.replicate 28 0) rfl (by decide) (by decide) (by decide) rfl⟩

/-! ## C7: the document driver accepts only comments and `compressed_data`

The source's loop rejects every top-level node that is neither; XML
well-formedness (the outer parse is external) guarantees exactly one
top-level *element*, and since every element the walk accepts is named
`compressed_data`, an accepted well-formed document has exactly one such
element. -/

/-- Only an element can carry the name `compressed_data`. -/
theorem nodeName_compressed_isElement (c : Node)
    (h : nodeName c = "compressed_data") : c.isElement = true := by
  cases c with
  | element n a cs => rfl
  | text d => simp [nodeName] at h
  | comment d => simp [nodeName] at h

/-- C7.  (i) A top-level node that is neither a comment nor a
`compressed_data` element makes the walk fail with `UnexpectedNode` on
that node the moment it is reached; (ii) if the walk succeeds, every
top-level node was a comment or a `compressed_data` element; (iii) on a
well-formed outer document (exactly one top-level element node), a
successful walk implies the document contains exactly one
`compressed_data` element. -/
theorem xad_toplevel_dispatch :
    (∀ (inflateF : List Nat → Option (List Nat)) (pXml : List Nat → Option (List Node))
       (c : Node) (rest : List Node),
      nodeName c ≠ "#comment" → nodeName c ≠ "compressed_data" →
      goXad inflateF pXml (c :: rest) =
        .error (.unexpectedNode c "Unexpected node in XAD XML document")) ∧
    (∀ (inflateF : List Nat → Option (List Nat)) (pXml : List Nat → Option (List Node))
       (doc : List Node),
      parse_xad_file inflateF pXml doc = .ok () →
      ∀ c ∈ doc, nodeName c = "#comment" ∨ nodeName c = "compressed_data") ∧
    (∀ (inflateF : List Nat → Option (List Nat)) (pXml : List Nat → Option (List Node))
       (doc : List Node),
      (doc.filter (fun c => c.isElement)).length = 1 →
      parse_xad_file inflateF pXml doc = .ok () →
      (doc.filter (fun c => nodeName c == "compressed_data")).length = 1) := by
  have hsucc : ∀ (inflateF : List Nat → Option (List Nat))
      (pXml : List Nat → Option (List Node)) (doc : List Node),
      goXad inflateF pXml doc = .ok () →
      ∀ c ∈ doc, (nodeName c = "#comment" ∧ c.isElement = false) ∨
        nodeName c = "compressed_data" := by
    intro inflateF pXml doc
    induction doc with
    | nil => intro _ c hc; simp at hc
    | cons a rest ih =>
      intro h c hc
      have hstep : xadChild inflateF pXml a = .ok () ∧ goXad inflateF pXml rest = .ok () := by
        cases hx : xadChild inflateF pXml a with
        | error e => rw [goXad, hx, except_error_bind] at h; exact absurd h (by simp)
        | ok u => cases u; rw [goXad, hx, except_ok_bind] at h; exact ⟨rfl, h⟩
      rcases List.mem_cons.mp hc with rfl | hc'
      · by_cases h1 : nodeName c = "#comment"
        · refine Or.inl ⟨h1, ?_⟩
          cases c with
          | element n a cs =>
            rw [xadChild, if_pos h1] at hstep
            have : xad_handle_comment pXml (.element n a cs) = .error .attributeError := by
              simp [xad_handle_comment, nodeValue]
            rw [this, except_error_bind] at hstep
            exact absurd hstep.1 (by simp)
          | text d => rfl
          | comment d => rfl
        · by_cases h2 : nodeName c = "compressed_data"
          · exact Or.inr h2
          · rw [xadChild, if_neg h1, if_neg h2] at hstep
            exact absurd hstep.1 (by simp)
      · exact ih hstep.2 c hc'
  refine ⟨?_, ?_, ?_⟩
  · intro inflateF pXml c rest h1 h2
    rw [goXad, xadChild, if_neg h1, if_neg h2, except_error_bind]
  · intro inflateF pXml doc h
    exact fun c hc => (hsucc inflateF pXml doc h c hc).imp And.left id
  · intro inflateF pXml doc hwf h
    have hall := hsucc inflateF pXml doc h
    have hfil : doc.filter (fun c => c.isElement) =
        doc.filter (fun c => nodeName c == "compressed_data") := by
      apply List.filter_congr
      intro c hc
      rcases hall c hc with ⟨hcom, hel⟩ | hcd
      · cases c with
        | element n a cs => simp [Node.isElement] at hel
        | text d => simp [Node.isElement, nodeName]
        | comment d => simp [Node.isElement, nodeName]
      · rw [nodeName_compressed_isElement c hcd]
        simp [hcd]
    rw [← hfil]
    exact hwf

/-- Witness for C7: a rejected non-element, the empty accepted document,
and a complete end-to-end accepting run (87-byte payload, one
`compressed_data` element) having exactly one `compressed_data` child. -/
theorem xad_toplevel_dispatch_witness :
    goXad (fun _ => none) (fun _ => none) [.element "foo" [] []] =
      .error (.unexpectedNode (.element "foo" [] []) "Unexpected node in XAD XML document") ∧
    (∀ c ∈ ([] : List Node), nodeName c = "#comment" ∨ nodeName c = "compressed_data") ∧
    (([Node.element "compressed_data" []
        [.text ((String.join (List.replicate 28 "AAAA") ++ "AOy9").toList)]].filter
          (fun c => nodeName c == "compressed_data")).length = 1) :=
  ⟨xad_toplevel_dispatch.1 (fun _ => none) (fun _ => none) (.element "foo" [] []) []
     (by decide) (by decide),
   xad_toplevel_dispatch.2.1 (fun _ => none) (fun _ => none) [] rfl,
   xad_toplevel_dispatch.2.2 (fun _ => some [60, 0])
     (fun _ => some [.element "Chipset" [] []])
     [Node.element "compressed_data" []
        [.text ((String.join (List.replicate 28 "AAAA") ++ "AOy9").toList)]]
     (by decide) rfl⟩

/-! ## Characterizing the greedy preview-split regexes

`regexSplit2 isSep s = some (p, x)` holds exactly when `s` decomposes as
`p ++ [c] ++ x ++ [NUL] ++ t` with `c` a separator, no separator inside
`x`, and no NUL inside `t` — i.e. the split is at the *last* separator
that still has a NUL after it, and the embedded part runs to the *last*
NUL.  These lemmas make that precise. -/

theorem lastNulSplit_none_nul_free : ∀ r : List Nat,
    lastNulSplit r = none → ∀ a ∈ r, a ≠ 0 := by
  intro r
  induction r with
  | nil => simp
  | cons c t ih =>
    intro h a ha
    cases ht : lastNulSplit t with
    | some x => rw [lastNulSplit, ht] at h; exact absurd h (by simp)
    | none =>
      rw [lastNulSplit, ht] at h
      by_cases hc : c = 0
      · rw [if_pos hc] at h; exact absurd h (by simp)
      · rcases List.mem_cons.mp ha with rfl | ha'
        · exact hc
        · exact ih ht a ha'

theorem lastNulSplit_eq_some_iff : ∀ r x : List Nat,
    lastNulSplit r = some x ↔ ∃ t, r = x ++ 0 :: t ∧ ∀ a ∈ t, a ≠ 0 := by
  intro r
  induction r with
  | nil =>
    intro x
    constructor
    · intro h; exact absurd h (by simp [lastNulSplit])
    · rintro ⟨t, heq, -⟩; exact absurd heq (by simp)
  | cons c r ih =>
    intro x
    cases hr : lastNulSplit r with
    | some x' =>
      obtain ⟨t', heq', ht'⟩ := (ih x').mp hr
      constructor
      · intro h
        rw [lastNulSplit, hr] at h
        have hx : c :: x' = x := by simpa using h
        subst hx
        exact ⟨t', by simp [heq'], ht'⟩
      · rintro ⟨t, heq, ht⟩
        rw [lastNulSplit, hr]
        cases x with
        | nil =>
          exfalso
          simp only [List.nil_append] at heq
          have hrt : r = t := (List.cons.injEq _ _ _ _ ▸ heq).2
          have : (0 : Nat) ∈ r := by rw [heq']; simp
          rw [hrt] at this
          exact ht 0 this rfl
        | cons b xs =>
          simp only [List.cons_append] at heq
          have hb : c = b := (List.cons.injEq _ _ _ _ ▸ heq).1
          have hreq : r = xs ++ 0 :: t := (List.cons.injEq _ _ _ _ ▸ heq).2
          have : lastNulSplit r = some xs := (ih xs).mpr ⟨t, hreq, ht⟩
          rw [hr] at this
          have hxs : x' = xs := by simpa using this
          simp [hb, hxs]
    | none =>
      constructor
      · intro h
        rw [lastNulSplit, hr] at h
        by_cases hc : c = 0
        · rw [if_pos hc] at h
          have hx : x = [] := by simpa using h.symm
          subst hx hc
          exact ⟨r, rfl, lastNulSplit_none_nul_free r hr⟩
        · rw [if_neg hc] at h
          exact absurd h (by simp)
      · rintro ⟨t, heq, ht⟩
        rw [lastNulSplit, hr]
        cases x with
        | nil =>
          simp only [List.nil_append] at heq
          have hc : c = 0 := (List.cons.injEq _ _ _ _ ▸ heq).1
          have hrt : r = t := (List.cons.injEq _ _ _ _ ▸ heq).2
          rw [if_pos hc]
        | cons b xs =>
          exfalso
          simp only [List.cons_append] at heq
          have hreq : r = xs ++ 0 :: t := (List.cons.injEq _ _ _ _ ▸ heq).2
          have : lastNulSplit r = some xs := (ih xs).mpr ⟨t, hreq, ht⟩
          rw [hr] at this
          exact absurd this (by simp)

/-- A word that is "separator-free text ∥ NUL ∥ NUL-free tail" admits no
separator-with-a-later-NUL decomposition at all. -/
theorem no_decomp_of_clean (isSep : Nat → Bool) :
    ∀ (x : List Nat), (∀ a ∈ x, isSep a = false) →
    ∀ (t : List Nat), (∀ a ∈ t, a ≠ 0) →
    ∀ (p' : List Nat) (c' : Nat) (x' t' : List Nat), isSep c' = true →
      x ++ 0 :: t ≠ p' ++ c' :: (x' ++ 0 :: t') := by
  intro x
  induction x with
  | nil =>
    intro _ t ht p' c' x' t' hc heq
    simp only [List.nil_append] at heq
    cases p' with
    | nil =>
      simp only [List.nil_append] at heq
      have h2 : t = x' ++ 0 :: t' := (List.cons.injEq _ _ _ _ ▸ heq).2
      exact ht 0 (by rw [h2]; simp) rfl
    | cons q ps =>
      simp only [List.cons_append] at heq
      have h2 : t = ps ++ c' :: (x' ++ 0 :: t') := (List.cons.injEq _ _ _ _ ▸ heq).2
      exact ht 0 (by rw [h2]; simp) rfl
  | cons b xs ih =>
    intro hx t ht p' c' x' t' hc heq
    cases p' with
    | nil =>
      simp only [List.cons_append, List.nil_append] at heq
      have h1 : b = c' := (List.cons.injEq _ _ _ _ ▸ heq).1
      have := hx b (by simp)
      rw [h1, hc] at this
      exact absurd this (by simp)
    | cons q ps =>
      simp only [List.cons_append] at heq
      have h2 : xs ++ 0 :: t = ps ++ c' :: (x' ++ 0 :: t') :=
        (List.cons.injEq _ _ _ _ ▸ heq).2
      exact ih (fun a ha => hx a (by simp [ha])) t ht ps c' x' t' hc h2

/-- Split a list at the last element satisfying a predicate. -/
theorem exists_last_sat (P : Nat → Bool) : ∀ l : List Nat, (∃ a ∈ l, P a = true) →
    ∃ u b v, l = u ++ b :: v ∧ P b = true ∧ ∀ a ∈ v, P a = false := by
  intro l
  induction l with
  | nil => rintro ⟨a, ha, -⟩; simp at ha
  | cons hd tl ih =>
    intro hex
    by_cases htl : ∃ a ∈ tl, P a = true
    · obtain ⟨u, b, v, heq, hb, hv⟩ := ih htl
      exact ⟨hd :: u, b, v, by simp [heq], hb, hv⟩
    · obtain ⟨a, ha, hPa⟩ := hex
      rcases List.mem_cons.mp ha with rfl | ha'
      · refine ⟨[], a, tl, rfl, hPa, ?_⟩
        intro y hy
        by_contra hne
        exact htl ⟨y, hy, by revert hne; cases P y <;> simp⟩
      · exact absurd ⟨a, ha', hPa⟩ htl

/-- The greedy split succeeds with `(p, x)` exactly when the input is
`p ∥ separator ∥ x ∥ NUL ∥ t` with no separator in `x` and no NUL in
`t`. -/
theorem regexSplit2_eq_some_iff (isSep : Nat → Bool) :
    ∀ s p x : List Nat,
      regexSplit2 isSep s = some (p, x) ↔
        ∃ c t, isSep c = true ∧ s = p ++ c :: (x ++ 0 :: t) ∧
          (∀ a ∈ x, isSep a = false) ∧ (∀ a ∈ t, a ≠ 0) := by
  intro s
  induction s with
  | nil =>
    intro p x
    constructor
    · intro h; exact absurd h (by simp [regexSplit2])
    · rintro ⟨c, t, -, heq, -, -⟩
      exact absurd heq (by simp)
  | cons a r ih =>
    intro p x
    cases hr : regexSplit2 isSep r with
    | some pr =>
      obtain ⟨p', x'⟩ := pr
      constructor
      · intro h
        rw [regexSplit2, hr] at h
        simp only [Option.some.injEq, Prod.mk.injEq] at h
        obtain ⟨hp, hx⟩ := h
        obtain ⟨c, t, hc, heq, hxf, htf⟩ := (ih p' x').mp hr
        refine ⟨c, t, hc, ?_, ?_, htf⟩
        · rw [← hp, ← hx, heq]
          simp
        · rw [← hx]
          exact hxf
      · rintro ⟨c, t, hc, heq, hxf, htf⟩
        rw [regexSplit2, hr]
        cases p with
        | nil =>
          exfalso
          simp only [List.nil_append] at heq
          have hreq : r = x ++ 0 :: t := (List.cons.injEq _ _ _ _ ▸ heq).2
          obtain ⟨c', t', hc', heq', hxf', htf'⟩ := (ih p' x').mp hr
          rw [hreq] at heq'
          exact no_decomp_of_clean isSep x hxf t htf p' c' x' t' hc' heq'
        | cons q ps =>
          simp only [List.cons_append] at heq
          have h1 : a = q := (List.cons.injEq _ _ _ _ ▸ heq).1
          have h2 : r = ps ++ c :: (x ++ 0 :: t) := (List.cons.injEq _ _ _ _ ▸ heq).2
          have : regexSplit2 isSep r = some (ps, x) :=
            (ih ps x).mpr ⟨c, t, hc, h2, hxf, htf⟩
          rw [hr] at this
          simp only [Option.some.injEq, Prod.mk.injEq] at this
          simp [h1, this.1, this.2]
    | none =>
      cases hn : lastNulSplit r with
      | some x0 =>
        constructor
        · intro h
          rw [regexSplit2, hr, hn] at h
          by_cases ha : isSep a = true
          · rw [if_pos ha] at h
            simp only [Option.some.injEq, Prod.mk.injEq] at h
            obtain ⟨hp, hx⟩ := h
            subst hp
            obtain ⟨t, hreq, htf⟩ := (lastNulSplit_eq_some_iff r x0).mp hn
            refine ⟨a, t, ha, by simp [hreq, ← hx], ?_, htf⟩
            -- x0 must be separator-free: a separator inside it would let the
            -- greedy engine split inside r, contradicting `regexSplit2 r = none`
            intro y hy
            rw [← hx] at hy
            by_contra hne
            have hPy : isSep y = true := by revert hne; cases isSep y <;> simp
            obtain ⟨u, b, v, hx0eq, hPb, hv⟩ :=
              exists_last_sat isSep x0 ⟨y, hy, hPy⟩
            have : regexSplit2 isSep r = some (u, v) := by
              refine (ih u v).mpr ⟨b, t, hPb, ?_, hv, htf⟩
              rw [hreq, hx0eq]
              simp
            rw [hr] at this
            exact absurd this (by simp)
          · rw [if_neg ha] at h
            exact absurd h (by simp)
        · rintro ⟨c, t, hc, heq, hxf, htf⟩
          rw [regexSplit2, hr, hn]
          cases p with
          | nil =>
            simp only [List.nil_append] at heq
            have h1 : a = c := (List.cons.injEq _ _ _ _ ▸ heq).1
            have h2 : r = x ++ 0 :: t := (List.cons.injEq _ _ _ _ ▸ heq).2
            rw [h1, if_pos hc]
            have : lastNulSplit r = some x :=
              (lastNulSplit_eq_some_iff r x).mpr ⟨t, h2, htf⟩
            rw [hn] at this
            have hx : x0 = x := by simpa using this
            simp [hx]
          | cons q ps =>
            exfalso
            simp only [List.cons_append] at heq
            have h2 : r = ps ++ c :: (x ++ 0 :: t) := (List.cons.injEq _ _ _ _ ▸ heq).2
            have : regexSplit2 isSep r = some (ps, x) :=
              (ih ps x).mpr ⟨c, t, hc, h2, hxf, htf⟩
            rw [hr] at this
            exact absurd this (by simp)
      | none =>
        constructor
        · intro h
          rw [regexSplit2, hr, hn] at h
          by_cases ha : isSep a = true
          · rw [if_pos ha] at h; exact absurd h (by simp)
          · rw [if_neg ha] at h; exact absurd h (by simp)
        · rintro ⟨c, t, hc, heq, hxf, htf⟩
          exfalso
          cases p with
          | nil =>
            simp only [List.nil_append] at heq
            have h2 : r = x ++ 0 :: t := (List.cons.injEq _ _ _ _ ▸ heq).2
            have : lastNulSplit r = some x :=
              (lastNulSplit_eq_some_iff r x).mpr ⟨t, h2, htf⟩
            rw [hn] at this
            exact absurd this (by simp)
          | cons q ps =>
            simp only [List.cons_append] at heq
            have h2 : r = ps ++ c :: (x ++ 0 :: t) := (List.cons.injEq _ _ _ _ ▸ heq).2
            have : regexSplit2 isSep r = some (ps, x) :=
              (ih ps x).mpr ⟨c, t, hc, h2, hxf, htf⟩
            rw [hr] at this
            exact absurd this (by simp)

/-! ## C9: the two implementations' preview splits

`xad.py:76` uses `(.*)\x01(.*)\x00` — the separator is SOH *only*, not a
single NUL as the claim says — while `xadder.py:98` uses
`(.*)[\x00\x01](.*)\x00`.  Because both `(.*)` groups are greedy, the two
implementations can also return *different* pairs on a text where both
succeed: xadder's separator class matches a NUL lying after xad's last
SOH. -/

/-- Counterexample to C9 as stated, on the code-point texts `A␀B␀` and
`A␁B␀C␀`: (i) `xad.py` does *not* split at a single NUL — it fails on a
NUL-separated text that `xadder.py` splits; (ii) on a text where both
splits succeed they can return different pairs. -/
theorem preview_split_implementations_differ :
    xadPreviewSplit [65, 0, 66, 0] = none ∧
    xadderPreviewSplit [65, 0, 66, 0] = some ([65], [66]) ∧
    xadPreviewSplit [65, 1, 66, 0, 67, 0] = some ([65], [66, 0, 67]) ∧
    xadderPreviewSplit [65, 1, 66, 0, 67, 0] = some ([65, 1, 66], [67]) ∧
    (([65], ([66, 0, 67] : List Nat)) ≠ (([65, 1, 66], [67]) : List Nat × List Nat)) :=
  ⟨rfl, rfl, rfl, rfl, by decide⟩

/-- C9, amended: `xad.py` splits at a single SOH byte while `xadder.py`
splits at a NUL-or-SOH byte.  Whenever `xad.py`'s split succeeds,
`xadder.py`'s also succeeds; `xad.py`'s preamble is a prefix of
`xadder.py`'s and `xadder.py`'s embedded part is a suffix of `xad.py`'s;
the two produce the same pair exactly when `xad.py`'s embedded part
contains no NUL. -/
theorem preview_split_refinement :
    ∀ txt p x : List Nat, xadPreviewSplit txt = some (p, x) →
      ∃ p' x', xadderPreviewSplit txt = some (p', x') ∧
        p <+: p' ∧ x' <:+ x ∧ ((p' = p ∧ x' = x) ↔ ∀ a ∈ x, a ≠ 0) := by
  intro txt p x h
  obtain ⟨c, t, hc, heq, hxf, htf⟩ :=
    (regexSplit2_eq_some_iff (fun c => c == 1) txt p x).mp h
  have hc1 : c = 1 := by simpa using hc
  subst hc1
  by_cases hx0 : ∀ a ∈ x, a ≠ 0
  · have hsplit : xadderPreviewSplit txt = some (p, x) := by
      refine (regexSplit2_eq_some_iff (fun c => c == 0 || c == 1) txt p x).mpr
        ⟨1, t, by simp, heq, ?_, htf⟩
      intro a ha
      have h1 := hxf a ha
      have h0 := hx0 a ha
      simp at h1 ⊢
      exact ⟨h0, h1⟩
    exact ⟨p, x, hsplit, List.prefix_rfl, List.suffix_rfl,
      iff_of_true ⟨rfl, rfl⟩ hx0⟩
  · push_neg at hx0
    obtain ⟨y, hy, hy0⟩ := hx0
    have hsep : ∃ a ∈ x, (a == 0 || a == 1) = true := ⟨y, hy, by simp [hy0]⟩
    obtain ⟨u, b, v, hxeq, hPb, hv⟩ := exists_last_sat (fun c => c == 0 || c == 1) x hsep
    have hsplit : xadderPreviewSplit txt = some (p ++ 1 :: u, v) := by
      refine (regexSplit2_eq_some_iff (fun c => c == 0 || c == 1) txt _ v).mpr
        ⟨b, t, hPb, ?_, hv, htf⟩
      rw [heq, hxeq]
      simp
    refine ⟨p ++ 1 :: u, v, hsplit, ⟨1 :: u, rfl⟩, ⟨u ++ [b], by simp [hxeq]⟩, ?_⟩
    constructor
    · rintro ⟨hp', -⟩
      exfalso
      have := congrArg List.length hp'
      simp at this
    · intro hall
      exact absurd (hall y hy) (by simp [hy0])

/-- Witness for C9 (amended) on the text `A␁B␀C␀`, where the two splits
disagree: the refinement relation holds concretely. -/
theorem preview_split_refinement_witness :
    ∃ p' x', xadderPreviewSplit [65, 1, 66, 0, 67, 0] = some (p', x') ∧
      [65] <+: p' ∧ x' <:+ [66, 0, 67] ∧
      ((p' = [65] ∧ x' = [66, 0, 67]) ↔ ∀ a ∈ ([66, 0, 67] : List Nat), a ≠ 0) :=
  preview_split_refinement [65, 1, 66, 0, 67, 0] [65] [66, 0, 67] rfl

/-! ## C5: the preview comment decode chain

The chain (strip `\n`, Base64-decode, UTF-16LE decode, split, normalize
line endings, `ParseFailure` when the pattern is absent) is as the claim
says except for one word: both `(.*)` groups of the split regex are
greedy, so the split is at the **last** NUL-or-SOH that still has a NUL
after it (and the embedded part ends at the last NUL), not at the first
occurrence. -/

/-- Counterexample to C5 as stated: the preview payload decodes (UTF-16LE)
to the text `A␀B␀C␀`.  A first-occurrence split would give preamble `A` —
UTF-16LE bytes `utf16leEncode [65] = [65, 0]` — and embedded text
`B␀C`; the implementation instead returns preamble bytes
`[65, 0, 0, 0, 66, 0]` (the text `A␀B`) and embedded text `C`: the split
is at the last qualifying separator. -/
theorem preview_split_last_not_first :
    xad_handle_comment (fun _ => some [])
      (.comment ("preview infomation:ab:QQAAAEIAAABDAAAA".toList)) =
      .ok (.previewBundle ⟨['a', 'b'], [65, 0, 0, 0, 66, 0], [67]⟩) ∧
    ([65, 0, 0, 0, 66, 0] : List Nat) ≠ utf16leEncode [65] :=
  ⟨rfl, by decide⟩

/-- C5, amended.  For a comment matching the preview sentinel (and not the
higher-priority `comment tag` sentinel): the decoder strips `\n` from the
Base64 payload, Base64-decodes it, decodes the bytes as UTF-16LE, splits
the text at the *last* NUL-or-SOH byte that is followed by a later NUL
(the embedded part ending just before the last NUL), normalizes `\r\n` and
`\r` to `\n` in the embedded XML, hands it to the external XML parse and
the Preview walk, and returns the bundle (uuid, UTF-16LE-re-encoded
preamble, normalized XML); it fails with `ParseFailure` when no such split
pattern exists. -/
theorem preview_decode_chain :
    (∀ (pXml : List Nat → Option (List Node)) (n : Node) (data u b64grp : List Char)
       (bytes txt p : List Nat) (c : Nat) (x t : List Nat),
      nodeValue n = some data →
      tagFind data = none →
      previewFind data = some (u, b64grp) →
      b64decode (b64grp.filter (fun ch => ch ≠ '\n')) = some bytes →
      utf16leDecode bytes = some txt →
      txt = p ++ c :: (x ++ 0 :: t) →
      (c = 0 ∨ c = 1) →
      (∀ a ∈ x, a ≠ 0 ∧ a ≠ 1) →
      (∀ a ∈ t, a ≠ 0) →
      xad_handle_comment pXml n =
        (match pXml (normalizeNewlines x) with
         | none => .error .expatError
         | some doc => do
             parse_preview_xml doc
             .ok (.previewBundle ⟨u, utf16leEncode p, normalizeNewlines x⟩))) ∧
    (∀ (pXml : List Nat → Option (List Node)) (n : Node) (data u b64grp : List Char)
       (bytes txt : List Nat),
      nodeValue n = some data →
      tagFind data = none →
      previewFind data = some (u, b64grp) →
      b64decode (b64grp.filter (fun ch => ch ≠ '\n')) = some bytes →
      utf16leDecode bytes = some txt →
      xadderPreviewSplit txt = none →
      xad_handle_comment pXml n = .error (.parseFailure "failed to parse preview")) := by
  constructor
  · intro pXml n data u b64grp bytes txt p c x t hval htag hprev hb hutf hdecomp hc hx ht
    have hsplit : xadderPreviewSplit txt = some (p, x) := by
      refine (regexSplit2_eq_some_iff (fun a => a == 0 || a == 1) txt p x).mpr
        ⟨c, t, ?_, hdecomp, ?_, ht⟩
      · rcases hc with rfl | rfl <;> simp
      · intro a ha
        have := hx a ha
        simp [this.1, this.2]
    simp only [xad_handle_comment, hval, htag, hprev, hb, hutf, hsplit, except_ok_bind]
  · intro pXml n data u b64grp bytes txt hval htag hprev hb hutf hnone
    simp only [xad_handle_comment, hval, htag, hprev, hb, hutf, hnone, except_ok_bind]

/-- Witness for C5 (amended): a successful preview bundle (text `X␀Y␀`,
accepted-spelling sentinel) and a `ParseFailure` on a payload without the
split pattern (text `X`). -/
theorem preview_decode_chain_witness :
    xad_handle_comment (fun _ => some [])
        (.comment ("preview information:ff:WAAAAFkAAAA=".toList)) =
      .ok (.previewBundle ⟨['f', 'f'], [88, 0], [89]⟩) ∧
    xad_handle_comment (fun _ => some [])
        (.comment ("preview infomation:aa:WAA=".toList)) =
      .error (.parseFailure "failed to parse preview") := by
  constructor
  · have h := preview_decode_chain.1 (fun _ => some [])
      (.comment ("preview information:ff:WAAAAFkAAAA=".toList))
      ("preview information:ff:WAAAAFkAAAA=".toList) ['f', 'f'] ("WAAAAFkAAAA=".toList)
      [88, 0, 0, 0, 89, 0, 0, 0] [88, 0, 89, 0] [88] 0 [89] []
      rfl (by decide) (by decide) (by decide) (by decide) rfl (Or.inl rfl)
      (by decide) (by decide)
    exact h.trans rfl
  · exact preview_decode_chain.2 (fun _ => some [])
      (.comment ("preview infomation:aa:WAA=".toList))
      ("preview infomation:aa:WAA=".toList) ['a', 'a'] ("WAA=".toList)
      [88, 0] [88]
      rfl (by decide) (by decide) (by decide) (by decide) (by decide)
